import Mathlib
/-!
Verification of the field-reconciliation engine of the doctor-verification
backend (backend/routers/doctor_router.py and backend/db/models.py).

The Python code is shallowly embedded:
* evidence values flowing out of the scrapers are loosely typed JSON-like
  dictionaries; they are modelled by the inductive type `PyVal`;
* real-valued similarity scores and thresholds are modelled as rationals;
* Python string methods are modelled on the character list of a `String`
  (ASCII case folding, whitespace run splitting, and so on);
* every verifier in the source wraps its body in a blanket try/except that
  returns the partially built result dictionary, so a Python exception raised
  while probing evidence is modelled by returning the result built so far
  (each such point is noted next to the corresponding definition).
-/

/-- A loosely typed Python value, as produced by the scraping collaborators
and consumed by the verifiers. -/
inductive PyVal where
  | none
  | bool (b : Bool)
  | int (n : Int)
  | str (s : String)
  | list (xs : List PyVal)
  | dict (kvs : List (String × PyVal))

/-- First-match association lookup. The encodings used in this file never
repeat a key, so first-match agrees with Python dict semantics. -/
def PyVal.lookup : List (String × PyVal) → String → Option PyVal
  | [], _ => Option.none
  | (k, v) :: rest, key => if k = key then some v else PyVal.lookup rest key

/-- Python `d.get(key, default)`. Every call site in the source either checks
`isinstance(d, dict)` first or is only reached with a dict, except for probes
of the top-level scraped bag; on a non-dict Python raises AttributeError
there, which the enclosing try/except turns into the same FieldOutcome that
the default value produces (every later probe of the same non-dict bag also
fails), so returning the default is observationally equal. -/
def PyVal.getD : PyVal → String → PyVal → PyVal
  | .dict kvs, k, d =>
    match PyVal.lookup kvs k with
    | some v => v
    | Option.none => d
  | _, _, d => d

/-- Python `d.get(key)` (default `None`). -/
def PyVal.get (v : PyVal) (k : String) : PyVal := v.getD k .none

/-- Python truthiness of a value. -/
def PyVal.truthy : PyVal → Bool
  | .none => false
  | .bool b => b
  | .int n => n != 0
  | .str s => s ≠ ""
  | .list xs => ¬ xs.isEmpty
  | .dict kvs => ¬ kvs.isEmpty

/-- Python `x == True`, as used at `tax.get("primary") == True`: `True`
itself and the integer 1 compare equal to `True`. -/
def pyEqTrue : PyVal → Bool
  | .bool b => b
  | .int n => n == 1
  | _ => false

/-- Python `str(v)` as applied by f-string interpolation to evidence fields
(`f"{basic_info.get('first_name', '')} ..."`). Only its value on actual
strings matters to any property proved below; for non-string values we use a
fixed rendering per constructor instead of modelling the full Python repr. -/
def PyVal.pyStr : PyVal → String
  | .str s => s
  | .none => "None"
  | .bool true => "True"
  | .bool false => "False"
  | .int n => toString n
  | .list _ => "[...]"
  | .dict _ => "\x7b...\x7d"

/-- Python `s.lower()` (ASCII case folding). -/
def pyLower (s : String) : String := ⟨s.data.map Char.toLower⟩

/-- Python `s.upper()` (ASCII case folding). -/
def pyUpper (s : String) : String := ⟨s.data.map Char.toUpper⟩

/-- Python `s.strip()`: drop leading and trailing whitespace. -/
def pyStrip (s : String) : String :=
  ⟨((s.data.dropWhile Char.isWhitespace).reverse.dropWhile Char.isWhitespace).reverse⟩

/-- Helper for `pyTokens`: split a character list on whitespace runs,
accumulating the current (reversed) token. -/
def splitWsAux : List Char → List Char → List String
  | [], cur => if cur.isEmpty then [] else [⟨cur.reverse⟩]
  | c :: rest, cur =>
    if c.isWhitespace then
      (if cur.isEmpty then [] else [(⟨cur.reverse⟩ : String)]) ++ splitWsAux rest []
    else splitWsAux rest (c :: cur)

/-- Python `s.split()` with no arguments: split on whitespace runs, dropping
empty pieces. -/
def pyTokens (s : String) : List String := splitWsAux s.data []

/-- Does `sub` occur as a leading segment of `l`? -/
def charsStart : List Char → List Char → Bool
  | [], _ => true
  | _ :: _, [] => false
  | a :: as, b :: bs => a == b && charsStart as bs

/-- Does `sub` occur as a contiguous segment of `l`? -/
def charsHave (sub : List Char) : List Char → Bool
  | [] => sub.isEmpty
  | b :: rest => charsStart sub (b :: rest) || charsHave sub rest

/-- Python substring test `sub in s`. -/
def pyIn (sub s : String) : Bool := charsHave sub.data s.data

/-- Python `s.replace(",", "")`: replacing a single character by the empty
string drops every occurrence of that character. -/
def dropCommas (s : String) : String := ⟨s.data.filter fun c => c ≠ ','⟩

/-- Number of distinct strings in a list (Python `len(set(l))`). -/
def setSize (l : List String) : Nat := l.dedup.length

/-- Number of distinct strings of `a` that also occur in `b`
(Python `len(set(a) & set(b))`). -/
def interSize (a b : List String) : Nat := (a.dedup.filter fun x => b.contains x).length

/-- Number of distinct strings occurring in `a` or `b`
(Python `len(set(a) | set(b))`). -/
def unionSize (a b : List String) : Nat := (a ++ b).dedup.length

/-- `calculate_name_similarity` (doctor_router.py line 72): word-set Jaccard
similarity of the lowercased names; 0.0 when either input is empty or has no
tokens. Scores are modelled as rationals. -/
def calculate_name_similarity (name1 name2 : String) : ℚ :=
  if name1 = "" ∨ name2 = "" then 0
  else
    let words1 := pyTokens (pyLower name1)
    let words2 := pyTokens (pyLower name2)
    if words1 = [] ∨ words2 = [] then 0
    else (interSize words1 words2 : ℚ) / (unionSize words1 words2 : ℚ)

/-- `calculate_address_similarity` (doctor_router.py line 89): same Jaccard
similarity, with commas removed after lowercasing. -/
def calculate_address_similarity (addr1 addr2 : String) : ℚ :=
  if addr1 = "" ∨ addr2 = "" then 0
  else
    let words1 := pyTokens (dropCommas (pyLower addr1))
    let words2 := pyTokens (dropCommas (pyLower addr2))
    if words1 = [] ∨ words2 = [] then 0
    else (interSize words1 words2 : ℚ) / (unionSize words1 words2 : ℚ)

/-- `normalize_phone` (local function inside verify_phone_number, line 406):
keep only digit characters. -/
def normalize_phone (phone : String) : String :=
  if phone = "" then "" else ⟨phone.data.filter Char.isDigit⟩

/-- The per-field verification outcome dictionary (result of each verifier):
claimed value, observed value, provenance label, tri-state match flag.
`α` is the claimed-value type (`String`, or `List String` for insurance
networks); observed values keep their loose `PyVal` shape. -/
structure FieldOutcome (α : Type) where
  input_field_a : Option α
  scraped_data_field_a : Option PyVal
  scraped_from : Option String
  -- the "matches" key of the result dict; matches is a reserved word in Lean
  matches_ : Option Bool

/-- Python `input if input else None`: optional request fields arrive as
`None` or a string, and both `None` and the empty string are recorded as an
absent input, so claimed values are modelled as plain strings with `""` for
an absent value (lists likewise, with `[]`). -/
def strInput (s : String) : Option String := if s = "" then Option.none else some s

/-- Python `if input and input.strip():` — a usable claimed value is
non-empty and not whitespace-only. -/
def nonBlank (s : String) : Bool := s ≠ "" && pyStrip s ≠ ""

/-- Scan of scraped practice_locations for a truthy doctor_name
(verify_full_name lines 212-218). -/
def locNameScan : List PyVal → Option PyVal
  | [] => Option.none
  | l :: rest =>
    match l with
    | .dict kvs =>
      let v := (PyVal.dict kvs).get "doctor_name"
      if v.truthy then some v else locNameScan rest
    | _ => locNameScan rest

/-- The composed NPI display name from a best-match provider
(verify_full_name lines 197-203): requires a truthy dict provider whose
"basic" entry (default `{}`) is a dict; the composed name is
`f"{first_name} {last_name}".strip()`. Returns `""` when the provider or its
basic entry has the wrong shape. -/
def npiComposedName (best : PyVal) : String :=
  match best with
  | .dict kvs =>
    if (PyVal.dict kvs).truthy then
      match (PyVal.dict kvs).getD "basic" (.dict []) with
      | .dict bkvs =>
        pyStrip (((PyVal.dict bkvs).getD "first_name" (.str "")).pyStr ++ " " ++
          ((PyVal.dict bkvs).getD "last_name" (.str "")).pyStr)
      | _ => ""
    else ""
  | _ => ""

/-- Evidence search of verify_full_name (lines 192-218): NPI composed name,
then the loose top-level name, then scraped practice_locations. Returns the
found value with its provenance label. -/
def fullNameScan (scraped best : PyVal) : Option (PyVal × String) :=
  let n := npiComposedName best
  if n ≠ "" then some (.str n, "NPI Registry")
  else
    let v := scraped.get "name"
    if v.truthy then some (v, "Provider Directories")
    else
      match scraped.get "practice_locations" with
      | .list locs =>
        match locNameScan locs with
        | some v => some (v, "Google Places")
        | Option.none => Option.none
      | _ => Option.none

/-- `verify_full_name` (doctor_router.py lines 183-236). When a found value
is not a string, Python raises inside calculate_name_similarity after the
observed value has been recorded, and the try/except leaves `matches` at
`None`. -/
def verify_full_name (input_name : String) (scraped best : PyVal) :
    FieldOutcome String :=
  match fullNameScan scraped best with
  | Option.none => ⟨strInput input_name, Option.none, Option.none, Option.none⟩
  | some (v, src) =>
    let m : Option Bool :=
      if nonBlank input_name then
        match v with
        | .str s => some (decide (calculate_name_similarity input_name s ≥ 4/5))
        | _ => Option.none
      else Option.none
    ⟨strInput input_name, some v, some src, m⟩

/-- Scan for the first taxonomy dict with `tax.get("primary") == True`
(verify_specialty lines 256-260); returns that taxonomy's "desc" value
(which may be `None`). -/
def taxPrimaryScan : List PyVal → Option PyVal
  | [] => Option.none
  | t :: rest =>
    match t with
    | .dict kvs =>
      if pyEqTrue ((PyVal.dict kvs).get "primary") then some ((PyVal.dict kvs).get "desc")
      else taxPrimaryScan rest
    | _ => taxPrimaryScan rest

/-- Scan for the first taxonomy dict with a truthy "desc"
(verify_specialty lines 263-270). -/
def taxFirstDescScan : List PyVal → Option PyVal
  | [] => Option.none
  | t :: rest =>
    match t with
    | .dict kvs =>
      let d := (PyVal.dict kvs).get "desc"
      if d.truthy then some d else taxFirstDescScan rest
    | _ => taxFirstDescScan rest

/-- The NPI-sourced specialty of a best-match provider (verify_specialty
lines 252-270): the primary taxonomy's desc if truthy, else the first truthy
desc; `PyVal.none` when nothing usable is found. -/
def npiSpecialty (best : PyVal) : PyVal :=
  match best with
  | .dict kvs =>
    if (PyVal.dict kvs).truthy then
      match (PyVal.dict kvs).get "taxonomies" with
      | .list taxs =>
        if ¬ taxs.isEmpty then
          let d := (taxPrimaryScan taxs).getD .none
          if d.truthy then d
          else (taxFirstDescScan taxs).getD .none
        else .none
      | _ => .none
    else .none
  | _ => .none

/-- Evidence search of verify_specialty (lines 247-282): NPI taxonomy desc,
then the loose top-level specialty, then the first scraped service. The
provenance label is meaningful only when the value is truthy (mirroring
`data_source` in the code, which is only recorded when `found_specialty` is
truthy). -/
def specialtyScan (scraped best : PyVal) : PyVal × String :=
  let npi := npiSpecialty best
  if npi.truthy then (npi, "NPI Registry")
  else
    let sp := scraped.get "specialty"
    if sp.truthy then (sp, "Provider Directories")
    else
      match scraped.get "services_offered" with
      | .list (s :: _) => (s, "Provider Directories")
      | _ => (.none, "")

/-- `verify_specialty` (doctor_router.py lines 238-301). When the found
value is not a string, Python raises at `found_specialty.lower()` after the
observed value has been recorded, and the try/except leaves `matches` at
`None`. -/
def verify_specialty (input_specialty : String) (scraped best : PyVal) :
    FieldOutcome String :=
  let (found, src) := specialtyScan scraped best
  if found.truthy then
    let m : Option Bool :=
      if nonBlank input_specialty then
        match found with
        | .str s =>
          some (pyIn (pyLower input_specialty) (pyLower s) ||
            pyIn (pyLower s) (pyLower input_specialty))
        | _ => Option.none
      else Option.none
    ⟨strInput input_specialty, some found, some src, m⟩
  else ⟨strInput input_specialty, Option.none, Option.none, Option.none⟩

/-- Format one NPI address entry (verify_address lines 334-343):
`f"{address_1} {address_2}".strip()`, with `f", {city}, {state} {postal}".strip()`
appended when city, state or postal_code is truthy. -/
def formatNpiAddress (addr : PyVal) : String :=
  let l1 := (addr.getD "address_1" (.str "")).pyStr
  let l2 := (addr.getD "address_2" (.str "")).pyStr
  let city := addr.getD "city" (.str "")
  let state := addr.getD "state" (.str "")
  let postal := addr.getD "postal_code" (.str "")
  let base := pyStrip (l1 ++ " " ++ l2)
  if city.truthy || state.truthy || postal.truthy then
    base ++ pyStrip (", " ++ city.pyStr ++ ", " ++ state.pyStr ++ " " ++ postal.pyStr)
  else base

/-- The NPI stage of verify_address (lines 318-354): fold over the
concatenated addresses and practiceLocations of the best-match provider,
skipping non-dict entries and entries that format to a blank string. With a
usable claimed address, an entry replaces the running best only when its
similarity is strictly greater; with no usable claimed address, the first
formatted entry is kept. -/
def addrLoop (input_address : String) : List PyVal → Option String × ℚ → Option String × ℚ
  | [], acc => acc
  | a :: rest, acc =>
    match a with
    | .dict kvs =>
      let f := formatNpiAddress (.dict kvs)
      if pyStrip f ≠ "" then
        if nonBlank input_address then
          let s := calculate_address_similarity input_address f
          if s > acc.2 then addrLoop input_address rest (some f, s)
          else addrLoop input_address rest acc
        else
          match acc.1 with
          | Option.none => addrLoop input_address rest (some f, acc.2)
          | some _ => addrLoop input_address rest acc
      else addrLoop input_address rest acc
    | _ => addrLoop input_address rest acc

/-- The concatenated NPI address entries of a best-match provider
(verify_address lines 318-329): `addresses` then `practiceLocations`, each
only when it is a list; requires a truthy dict provider. -/
def npiAddrEntries (best : PyVal) : List PyVal :=
  match best with
  | .dict kvs =>
    if (PyVal.dict kvs).truthy then
      (match (PyVal.dict kvs).getD "addresses" (.list []) with
        | .list l => l
        | _ => []) ++
      (match (PyVal.dict kvs).getD "practiceLocations" (.list []) with
        | .list l => l
        | _ => [])
    else []
  | _ => []

/-- Stage three of verify_address (lines 367-377): the first scraped
practice_location with a truthy address. With a usable claimed address a
non-string value makes Python raise inside calculate_address_similarity
before the observed value is recorded, so the try/except yields the
degenerate outcome; with a blank claimed address the (possibly non-string)
value is recorded without any similarity computation. In the Google Places
stage (lines 357-364, in `verify_address` below) a truthy non-string raises
at `.strip()` with the same degenerate result. -/
def addrDirStage (input_address : String) (scraped : PyVal) : FieldOutcome String :=
  let inp := strInput input_address
  match scraped.get "practice_locations" with
  | .list (l :: _) =>
    match l with
    | .dict kvs =>
      let a := (PyVal.dict kvs).get "address"
      if a.truthy then
        if nonBlank input_address then
          match a with
          | .str s =>
            ⟨inp, some (.str s), some "Provider Directories",
              some (decide (calculate_address_similarity input_address s ≥ 3/5))⟩
          | _ => ⟨inp, Option.none, Option.none, Option.none⟩
        else ⟨inp, some a, some "Provider Directories", Option.none⟩
      else ⟨inp, Option.none, Option.none, Option.none⟩
    | _ => ⟨inp, Option.none, Option.none, Option.none⟩
  | _ => ⟨inp, Option.none, Option.none, Option.none⟩

/-- `verify_address` (doctor_router.py lines 303-394), continued: the NPI
fold, then the loose top-level address (Google Places), then the first
scraped practice_location (`addrDirStage`). -/
def verify_address (input_address : String) (scraped best : PyVal) :
    FieldOutcome String :=
  let inp := strInput input_address
  let npi := addrLoop input_address (npiAddrEntries best) (Option.none, 0)
  match npi.1 with
  | some f =>
    ⟨inp, some (.str f), some "NPI Registry",
      if nonBlank input_address then some (decide (npi.2 ≥ 3/5)) else Option.none⟩
  | Option.none =>
    let g := scraped.get "address"
    if g.truthy then
      match g with
      | .str gs =>
        if pyStrip gs ≠ "" then
          ⟨inp, some (.str gs), some "Google Places",
            if nonBlank input_address then
              some (decide (calculate_address_similarity input_address gs ≥ 3/5))
            else Option.none⟩
        else
          -- google_address is truthy but whitespace-only: fall through
          addrDirStage input_address scraped
      | _ => ⟨inp, Option.none, Option.none, Option.none⟩
    else addrDirStage input_address scraped

/-- Scan the NPI address/location entries for the first truthy
telephone_number (verify_phone_number lines 428-434). -/
def phoneNpiScan : List PyVal → Option PyVal
  | [] => Option.none
  | a :: rest =>
    match a with
    | .dict kvs =>
      let t := (PyVal.dict kvs).get "telephone_number"
      if t.truthy then some t else phoneNpiScan rest
    | _ => phoneNpiScan rest

/-- Scan the scraped practice_locations for the first truthy phone
(verify_phone_number lines 443-449). -/
def locPhoneScan : List PyVal → Option PyVal
  | [] => Option.none
  | l :: rest =>
    match l with
    | .dict kvs =>
      let v := (PyVal.dict kvs).get "phone"
      if v.truthy then some v else locPhoneScan rest
    | _ => locPhoneScan rest

/-- Evidence search of verify_phone_number (lines 411-449): NPI entries,
then the loose top-level phone_number, then scraped practice_locations. -/
def phoneScan (scraped best : PyVal) : Option (PyVal × String) :=
  match phoneNpiScan (npiAddrEntries best) with
  | some v => some (v, "NPI Registry")
  | Option.none =>
    let v := scraped.get "phone_number"
    if v.truthy then some (v, "Google Places")
    else
      match scraped.get "practice_locations" with
      | .list locs =>
        match locPhoneScan locs with
        | some v => some (v, "Provider Directories")
        | Option.none => Option.none
      | _ => Option.none

/-- `verify_phone_number` (doctor_router.py lines 396-466). When the found
value is not a string, Python raises inside normalize_phone after the
observed value has been recorded, and the try/except leaves the match flag
at `None`. -/
def verify_phone_number (input_phone : String) (scraped best : PyVal) :
    FieldOutcome String :=
  match phoneScan scraped best with
  | Option.none => ⟨strInput input_phone, Option.none, Option.none, Option.none⟩
  | some (v, src) =>
    let m : Option Bool :=
      if nonBlank input_phone then
        match v with
        | .str s => some (normalize_phone input_phone == normalize_phone s)
        | _ => Option.none
      else Option.none
    ⟨strInput input_phone, some v, some src, m⟩

/-- Three-valued result of a license-taxonomy scan: a Python exception
(`raisedExc`), completion without a find (`nothing`), or a found license. -/
inductive ScanRes where
  | raisedExc
  | nothing
  | found (s : String)

/-- License strategy 1 (verify_license_number lines 486-508): the first
taxonomy whose truthy desc matches the claimed specialty (equality,
substring either direction, or a known synonym) and whose license strips to
a non-empty string. A truthy non-string desc or license makes Python raise
at `.lower()` / `.strip()`. -/
def licStrat1 (specialty : String) : List PyVal → ScanRes
  | [] => .nothing
  | t :: rest =>
    match t with
    | .dict kvs =>
      let d := (PyVal.dict kvs).get "desc"
      let l := (PyVal.dict kvs).get "license"
      if d.truthy && l.truthy then
        match d with
        | .str ds =>
          let taxDesc := pyStrip (pyLower ds)
          let sl := pyStrip (pyLower specialty)
          let sMatch := sl = taxDesc ∨ pyIn sl taxDesc ∨ pyIn taxDesc sl ∨
            (sl = "family medicine" ∧ pyIn "family" taxDesc) ∨
            (sl = "internal medicine" ∧ pyIn "internal" taxDesc) ∨
            (sl = "cardiology" ∧ (pyIn "cardio" taxDesc ∨ pyIn "heart" taxDesc))
          if sMatch then
            match l with
            | .str ls =>
              if pyStrip ls ≠ "" then .found (pyStrip ls) else licStrat1 specialty rest
            | _ => .raisedExc
          else licStrat1 specialty rest
        | _ => .raisedExc
      else licStrat1 specialty rest
    | _ => licStrat1 specialty rest

/-- License strategy 2 (lines 511-519): the primary taxonomy whose license
strips to a non-empty, non-placeholder value ("--", "N/A"). -/
def licStrat2 : List PyVal → ScanRes
  | [] => .nothing
  | t :: rest =>
    match t with
    | .dict kvs =>
      if pyEqTrue ((PyVal.dict kvs).get "primary") &&
          ((PyVal.dict kvs).get "license").truthy then
        match (PyVal.dict kvs).get "license" with
        | .str ls =>
          let lv := pyStrip ls
          if lv ≠ "" ∧ lv ≠ "--" ∧ pyUpper lv ≠ "N/A" then .found lv else licStrat2 rest
        | _ => .raisedExc
      else licStrat2 rest
    | _ => licStrat2 rest

/-- License strategy 3 (lines 522-530): the first taxonomy whose license
strips to a non-empty, non-placeholder value. -/
def licStrat3 : List PyVal → ScanRes
  | [] => .nothing
  | t :: rest =>
    match t with
    | .dict kvs =>
      if ((PyVal.dict kvs).get "license").truthy then
        match (PyVal.dict kvs).get "license" with
        | .str ls =>
          let lv := pyStrip ls
          if lv ≠ "" ∧ lv ≠ "--" ∧ pyUpper lv ≠ "N/A" then .found lv else licStrat3 rest
        | _ => .raisedExc
      else licStrat3 rest
    | _ => licStrat3 rest

/-- The debug statement at line 483 builds
`[{tax.get('desc'): tax.get('license')} for tax in taxonomies if isinstance(tax, dict)]`,
which raises TypeError when some taxonomy desc is unhashable (a list or a
dict), before any strategy runs. -/
def licenseDebugRaises (taxs : List PyVal) : Bool :=
  taxs.any fun t =>
    match t with
    | .dict kvs =>
      match (PyVal.dict kvs).get "desc" with
      | .list _ => true
      | .dict _ => true
      | _ => false
    | _ => false

/-- The full license scan over the taxonomy list (lines 480-530): strategy 1
(only with a usable claimed specialty), then strategy 2, then strategy 3. A
raised exception is caught by the try/except; since the result dict is only
written after the scan, that yields the same outcome as finding nothing. -/
def licenseScan (specialty : String) (taxs : List PyVal) : Option String :=
  if licenseDebugRaises taxs then Option.none
  else
    match (if nonBlank specialty then licStrat1 specialty taxs else .nothing) with
    | .raisedExc => Option.none
    | .found l => some l
    | .nothing =>
      match licStrat2 taxs with
      | .raisedExc => Option.none
      | .found l => some l
      | .nothing =>
        match licStrat3 taxs with
        | .raisedExc => Option.none
        | .found l => some l
        | .nothing => Option.none

/-- `verify_license_number` (doctor_router.py lines 468-555). Only the
best-match provider is consulted; the scraped bag is ignored (the scraped
parameter is kept for signature fidelity). -/
def verify_license_number (input_license : String) (scraped best : PyVal)
    (request_specialty : String) : FieldOutcome String :=
  let _ := scraped
  let inp := strInput input_license
  match best with
  | .dict kvs =>
    if (PyVal.dict kvs).truthy then
      match (PyVal.dict kvs).get "taxonomies" with
      | .list taxs =>
        match licenseScan request_specialty taxs with
        | some l =>
          let m : Option Bool :=
            if nonBlank input_license then
              some (pyStrip (pyUpper input_license) == pyStrip (pyUpper l))
            else Option.none
          ⟨inp, some (.str l), some "NPI Registry", m⟩
        | Option.none => ⟨inp, Option.none, Option.none, Option.none⟩
      | _ => ⟨inp, Option.none, Option.none, Option.none⟩
    else ⟨inp, Option.none, Option.none, Option.none⟩
  | _ => ⟨inp, Option.none, Option.none, Option.none⟩

/-- Result of the payer-identifier scan of verify_insurance_networks: a
Python exception, or the accumulated canonical network names. -/
inductive NetScan where
  | raisedExc
  | ok (networks : List String)

/-- Map one identifier issuer to a canonical network name (lines 583-594).
`Option.none` on a truthy non-string issuer means Python raised at
`.lower()`; `some Option.none` means no keyword applied. -/
def issuerNet (issuer : PyVal) : Option (Option String) :=
  if issuer.truthy then
    match issuer with
    | .str s =>
      let il := pyLower s
      if pyIn "blue shield" il || pyIn "blue cross" il then some (some "Blue Cross Blue Shield")
      else if pyIn "aetna" il then some (some "Aetna")
      else if pyIn "cigna" il then some (some "Cigna")
      else if pyIn "humana" il then some (some "Humana")
      else if pyIn "united" il then some (some "UnitedHealthcare")
      else some Option.none
    | _ => Option.none
  else some Option.none

/-- Scan of the payer identifiers (verify_insurance_networks lines 571-594):
desc keywords MEDICAID/MEDICARE first, else issuer keywords. A truthy
non-string desc or issuer makes Python raise at `.upper()` / `.lower()`;
since the result dict is only written after the loop, the partial
accumulation is discarded. -/
def insScan : List PyVal → NetScan
  | [] => .ok []
  | i :: rest =>
    match i with
    | .dict kvs =>
      let desc := (PyVal.dict kvs).getD "desc" (.str "")
      let issuer := (PyVal.dict kvs).getD "issuer" (.str "")
      let step : Option (Option String) :=
        if desc.truthy then
          match desc with
          | .str ds =>
            if pyIn "MEDICAID" (pyUpper ds) then some (some "Medicaid")
            else if pyIn "MEDICARE" (pyUpper ds) then some (some "Medicare")
            else issuerNet issuer
          | _ => Option.none
        else issuerNet issuer
      match step with
      | Option.none => .raisedExc
      | some r =>
        match insScan rest with
        | .raisedExc => .raisedExc
        | .ok ns =>
          match r with
          | some n => .ok (n :: ns)
          | Option.none => .ok ns
    | _ => insScan rest

/-- `verify_insurance_networks` (doctor_router.py lines 557-612). The
claimed value is a list; `[]` models both Python `None` and an empty list
(both are falsy and recorded as an absent input). `list(set(...))`
deduplicates the found networks; Python set iteration order is not modelled
(no property below depends on the order). -/
def verify_insurance_networks (input_networks : List String) (scraped best : PyVal) :
    FieldOutcome (List String) :=
  let _ := scraped
  let inp := if input_networks.isEmpty then Option.none else some input_networks
  match best with
  | .dict kvs =>
    if (PyVal.dict kvs).truthy then
      let scan :=
        match (PyVal.dict kvs).getD "identifiers" (.list []) with
        | .list ids => insScan ids
        | _ => .ok []
      match scan with
      | .raisedExc => ⟨inp, Option.none, Option.none, Option.none⟩
      | .ok found =>
        if ¬ found.isEmpty then
          let unique := found.dedup
          let m : Option Bool :=
            if ¬ input_networks.isEmpty then
              some (input_networks.any fun x => unique.contains x)
            else Option.none
          ⟨inp, some (.list (unique.map .str)), some "NPI Registry", m⟩
        else ⟨inp, Option.none, Option.none, Option.none⟩
    else ⟨inp, Option.none, Option.none, Option.none⟩
  | _ => ⟨inp, Option.none, Option.none, Option.none⟩

/-- `verify_services_offered` (doctor_router.py lines 614-648): only the
loose top-level services list is consulted; a claimed value matches when
some observed string service is a substring of it or shares a word longer
than two characters with it (case-insensitive). -/
def verify_services_offered (input_services : String) (scraped best : PyVal) :
    FieldOutcome String :=
  let _ := best
  let inp := strInput input_services
  match scraped.get "services_offered" with
  | .list svcs =>
    if ¬ svcs.isEmpty then
      let m : Option Bool :=
        if nonBlank input_services then
          let il := pyLower input_services
          some (svcs.any fun sv =>
            match sv with
            | .str s =>
              let sl := pyLower s
              pyIn sl il || (pyTokens sl).any fun w => w.length > 2 && pyIn w il
            | _ => false)
        else Option.none
      ⟨inp, some (.list svcs), some "Provider Directories", m⟩
    else ⟨inp, Option.none, Option.none, Option.none⟩
  | _ => ⟨inp, Option.none, Option.none, Option.none⟩

/-- The provider display name used by the selector (get_best_matching_provider
lines 144-149): the composed `f"{first_name} {last_name}".strip()` when
"basic" (default `{}`) is a dict, else the fallback `provider.get('name', '')`
(which may be a non-string). -/
def provDisplayName (p : PyVal) : PyVal :=
  match p.getD "basic" (.dict []) with
  | .dict bkvs =>
    .str (pyStrip (((PyVal.dict bkvs).getD "first_name" (.str "")).pyStr ++ " " ++
      ((PyVal.dict bkvs).getD "last_name" (.str "")).pyStr))
  | _ => p.getD "name" (.str "")

/-- The selector name score (line 151):
`calculate_name_similarity(request.fullName, provider_name) if provider_name else 0.0`.
`Option.none` models Python raising inside calculate_name_similarity on a
truthy non-string fallback name, which makes the whole selector return None. -/
def provNameScore (fullName : String) (p : PyVal) : Option ℚ :=
  let n := provDisplayName p
  if n.truthy then
    match n with
    | .str s => some (calculate_name_similarity fullName s)
    | _ => Option.none
  else some 0

/-- Helper for `provSpecialties`: collect truthy "desc" values of dict
taxonomies, in order. -/
def provSpecialtiesAux : List PyVal → List PyVal
  | [] => []
  | t :: rest =>
    match t with
    | .dict kvs =>
      let d := (PyVal.dict kvs).getD "desc" (.str "")
      if d.truthy then d :: provSpecialtiesAux rest else provSpecialtiesAux rest
    | _ => provSpecialtiesAux rest

/-- The truthy taxonomy descriptions of a provider (lines 156-164). -/
def provSpecialties (p : PyVal) : List PyVal :=
  match p.getD "taxonomies" (.list []) with
  | .list taxs => provSpecialtiesAux taxs
  | _ => []

/-- The lazy `any(request.specialty.lower() in spec.lower() for spec ...)`
of line 167: stops at the first match; a non-string desc reached before a
match makes Python raise at `.lower()` (modelled as `Option.none`). -/
def specAnyMatch (specialty : String) : List PyVal → Option Bool
  | [] => some false
  | d :: rest =>
    match d with
    | .str s =>
      if pyIn (pyLower specialty) (pyLower s) then some true
      else specAnyMatch specialty rest
    | _ => Option.none

/-- The selector specialty score (lines 153-168): 1.0 when the claimed
specialty is non-blank and is a (case-insensitive) substring of some truthy
taxonomy description of the provider, else 0.0. -/
def specialty_score (specialty : String) (p : PyVal) : Option ℚ :=
  if nonBlank specialty then
    let specs := provSpecialties p
    if ¬ specs.isEmpty then
      match specAnyMatch specialty specs with
      | some true => some 1
      | some false => some 0
      | Option.none => Option.none
    else some 0
  else some 0

/-- The combined selector score (line 171):
`(name_score * 0.7) + (specialty_score * 0.3)`. -/
def provScore (fullName specialty : String) (p : PyVal) : Option ℚ :=
  match provNameScore fullName p, specialty_score specialty p with
  | some n, some s => some (n * (7/10) + s * (3/10))
  | _, _ => Option.none

/-- The selector loop (lines 139-175): skip non-dict providers; a candidate
replaces the running best only when its combined score is strictly greater
than the running best AND strictly greater than 0.5. The outer `Option.none`
models a raised exception, caught at line 179 with the selector returning
None. -/
def selLoop (fullName specialty : String) :
    List PyVal → Option PyVal → ℚ → Option (Option PyVal)
  | [], best, _ => some best
  | p :: rest, best, bs =>
    match p with
    | .dict kvs =>
      match provScore fullName specialty (.dict kvs) with
      | Option.none => Option.none
      | some c =>
        if c > bs ∧ c > 1/2 then selLoop fullName specialty rest (some (.dict kvs)) c
        else selLoop fullName specialty rest best bs
    | _ => selLoop fullName specialty rest best bs

/-- `get_best_matching_provider` (doctor_router.py lines 126-181). When
`results` is not a list, Python either iterates its keys or characters
(none of which are dicts, so nothing is selected) or raises on a
non-iterable (caught at line 179): the selector returns None in every such
case. -/
def get_best_matching_provider (fullName specialty : String) (scraped : PyVal) :
    Option PyVal :=
  match (scraped.getD "npi_data" (.dict [])).getD "results" (.list []) with
  | .list providers =>
    if providers.isEmpty then Option.none
    else
      match selLoop fullName specialty providers Option.none 0 with
      | some r => r
      | Option.none => Option.none
  | _ => Option.none

/-! ## Well-shaped evidence

Typed counterparts of the loose evidence dictionaries, together with their
encodings into `PyVal`. These describe evidence whose fields have the shapes
the code expects (strings where strings are read); absent string fields are
modelled by `""`, which is falsy exactly like an absent key. -/

/-- A well-shaped NPI taxonomy entry: description, license, primary flag. -/
structure Taxonomy where
  desc : String := ""
  license : String := ""
  primary : Bool := false

/-- Encode a taxonomy entry as the dict the NPI registry returns. -/
def Taxonomy.enc (t : Taxonomy) : PyVal :=
  .dict [("desc", .str t.desc), ("license", .str t.license), ("primary", .bool t.primary)]

/-- A well-shaped NPI address / practice-location entry. The code reads the
five address parts and the telephone number; `address_purpose` is carried by
the registry data but never read by the verifiers. -/
structure NpiAddress where
  address_1 : String := ""
  address_2 : String := ""
  city : String := ""
  state : String := ""
  postal_code : String := ""
  telephone_number : String := ""
  address_purpose : String := ""

/-- Encode an address entry as the dict the NPI registry returns. -/
def NpiAddress.enc (a : NpiAddress) : PyVal :=
  .dict [("address_1", .str a.address_1), ("address_2", .str a.address_2),
    ("city", .str a.city), ("state", .str a.state), ("postal_code", .str a.postal_code),
    ("telephone_number", .str a.telephone_number), ("address_purpose", .str a.address_purpose)]

/-- A well-shaped NPI payer identifier: description and issuer. -/
structure PayerId where
  desc : String := ""
  issuer : String := ""

/-- Encode a payer identifier as the dict the NPI registry returns. -/
def PayerId.enc (i : PayerId) : PyVal :=
  .dict [("desc", .str i.desc), ("issuer", .str i.issuer)]

/-- A well-shaped NPI candidate provider record. -/
structure Provider where
  first_name : String := ""
  last_name : String := ""
  taxonomies : List Taxonomy := []
  addresses : List NpiAddress := []
  practiceLocations : List NpiAddress := []
  identifiers : List PayerId := []

/-- Encode a provider as the dict the NPI registry returns. -/
def Provider.enc (p : Provider) : PyVal :=
  .dict [("basic", .dict [("first_name", .str p.first_name), ("last_name", .str p.last_name)]),
    ("taxonomies", .list (p.taxonomies.map Taxonomy.enc)),
    ("addresses", .list (p.addresses.map NpiAddress.enc)),
    ("practiceLocations", .list (p.practiceLocations.map NpiAddress.enc)),
    ("identifiers", .list (p.identifiers.map PayerId.enc))]

/-- A well-shaped scraped practice location (non-registry source). -/
structure ScrapedLocation where
  doctor_name : String := ""
  address : String := ""
  phone : String := ""

/-- Encode a scraped practice location. -/
def ScrapedLocation.enc (l : ScrapedLocation) : PyVal :=
  .dict [("doctor_name", .str l.doctor_name), ("address", .str l.address),
    ("phone", .str l.phone)]

/-- A well-shaped aggregated scrape bag. -/
structure ScrapedData where
  npi_results : List Provider := []
  name : String := ""
  specialty : String := ""
  address : String := ""
  phone_number : String := ""
  services_offered : List String := []
  practice_locations : List ScrapedLocation := []

/-- Encode a scrape bag as the dict `search_doctor_info` returns. -/
def ScrapedData.enc (s : ScrapedData) : PyVal :=
  .dict [("npi_data", .dict [("results", .list (s.npi_results.map Provider.enc))]),
    ("name", .str s.name), ("specialty", .str s.specialty), ("address", .str s.address),
    ("phone_number", .str s.phone_number),
    ("services_offered", .list (s.services_offered.map .str)),
    ("practice_locations", .list (s.practice_locations.map ScrapedLocation.enc))]

/-- Encode the best-match argument handed to the verifiers: None or a
provider record. -/
def encBest : Option Provider → PyVal
  | Option.none => .none
  | some p => p.enc

/-! ## Report persistence

`db/models.py` declares `verification_id = Column(..., unique=True)` on the
doctor_reports table, and `verify_doctor` (doctor_router.py lines 706-731)
persists with `db.add` + `db.commit` (a plain INSERT); any exception is
caught, the transaction is rolled back and an HTTP 500 is raised. The
database table is modelled as the list of stored rows; an INSERT violating
the declared unique constraint is rejected by the database and leaves the
table unchanged. -/

/-- A stored verification report row: the unique verification identifier and
the seven flattened field outcomes. -/
structure StoredReport where
  verification_id : String
  fullName : FieldOutcome String
  specialty : FieldOutcome String
  address : FieldOutcome String
  phoneNumber : FieldOutcome String
  licenseNumber : FieldOutcome String
  insuranceNetworks : FieldOutcome (List String)
  servicesOffered : FieldOutcome String

/-- INSERT of a report row under the unique constraint on verification_id
declared in db/models.py line 13: a duplicate key is a constraint violation
(IntegrityError) and the table is unchanged. -/
def insertReport (store : List StoredReport) (r : StoredReport) :
    Except String (List StoredReport) :=
  if store.any fun row => row.verification_id = r.verification_id then
    .error "duplicate key value violates unique constraint"
  else .ok (store ++ [r])

/-- What verify_doctor returns to the caller for the persistence step
(lines 706-731): the saved report on success; on any exception the session
is rolled back and `HTTPException(status_code=500, ...)` is raised. -/
inductive VerifyPersistOutcome where
  | saved (report : StoredReport) (store : List StoredReport)
  | httpError (status : Nat) (store : List StoredReport)

/-- The persistence step of verify_doctor: `db.add(db_report); db.commit()`
inside the try, with the except handler rolling back and raising HTTP 500. -/
def persistReport (store : List StoredReport) (r : StoredReport) :
    VerifyPersistOutcome :=
  match insertReport store r with
  | .ok s => .saved r s
  | .error _ => .httpError 500 store

/-- Generic form of the selection loops: fold a list keeping the first
element whose score strictly exceeds both the running best and the admission
threshold `thr`. Instantiated with `thr = 1/2` for the candidate selector
and `thr = 0` for the NPI-address similarity loop. -/
def strictBest {α : Type} (score : α → ℚ) (thr : ℚ) :
    List α → Option α × ℚ → Option α × ℚ
  | [], acc => acc
  | x :: xs, acc =>
    if score x > acc.2 ∧ score x > thr then strictBest score thr xs (some x, score x)
    else strictBest score thr xs acc

/-- The display name of a well-shaped provider:
`f"{first_name} {last_name}".strip()`. -/
def Provider.displayName (p : Provider) : String :=
  pyStrip (p.first_name ++ " " ++ p.last_name)

/-- The selector specialty score of a well-shaped provider: 1 when the
claimed specialty is usable and is a case-insensitive substring of some
non-empty taxonomy description, else 0. -/
def typedSpecScore (sp : String) (p : Provider) : ℚ :=
  if nonBlank sp = true ∧
      (p.taxonomies.any fun t => t.desc ≠ "" && pyIn (pyLower sp) (pyLower t.desc)) = true
  then 1 else 0

/-- The combined selector score of a well-shaped provider. -/
def typedScore (fn sp : String) (p : Provider) : ℚ :=
  calculate_name_similarity fn p.displayName * (7/10) + typedSpecScore sp p * (3/10)

/-- A scrape bag containing only NPI candidate records. -/
def npiBag (ps : List Provider) : ScrapedData := ⟨ps, "", "", "", "", [], []⟩

/-- Sample well-shaped provider used in witnesses. -/
def provJohnSmith : Provider := ⟨"John", "Smith", [], [], [], []⟩

/-- Sample well-shaped provider whose name shares no token with
"John Smith". -/
def provXavierYu : Provider := ⟨"Xavier", "Yu", [], [], [], []⟩

/-- Sample provider with a single taxonomy description
"Internal Medicine". -/
def provIM : Provider := ⟨"", "", [⟨"Internal Medicine", "", false⟩], [], [], []⟩

/-- Loose scrape bag observing the name "John Smith". -/
def bagJohnName : PyVal := PyVal.dict [("name", PyVal.str "John Smith")]

/-- The all-absent field outcome. -/
def emptyOutcome : FieldOutcome String := ⟨Option.none, Option.none, Option.none, Option.none⟩

/-- The all-absent list-valued field outcome. -/
def emptyOutcomeL : FieldOutcome (List String) :=
  ⟨Option.none, Option.none, Option.none, Option.none⟩

/-- A sample stored report with identifier "VER_1". -/
def sampleReport : StoredReport :=
  ⟨"VER_1", emptyOutcome, emptyOutcome, emptyOutcome, emptyOutcome, emptyOutcome,
    emptyOutcomeL, emptyOutcome⟩

/-- The formatted, non-blank NPI address candidates of a well-shaped
provider, in scan order (addresses then practiceLocations); the entries'
address_purpose values play no role. -/
def Provider.addrCands (p : Provider) : List String :=
  ((p.addresses ++ p.practiceLocations).map fun a => formatNpiAddress a.enc).filter
    fun f => pyStrip f ≠ ""

/-- A provider whose only address entry has purpose "MAILING". -/
def provMailing : Provider :=
  ⟨"", "", [], [⟨"100 Main St", "", "Springfield", "IL", "62701", "", "MAILING"⟩], [], []⟩

/-! ## Properties -/

/-! ## Properties -/
example : pyTokens " John  A. Smith " = ["John", "A.", "Smith"] := by decide

example : pyIn "internal" "internal medicine" = true := by decide

example : pyIn "internal medicine subspecialty" "internal medicine" = false := by decide

example : normalize_phone "(212) 555-0199" = "2125550199" := by decide

/-- Evaluation helper: unfold a name similarity to an explicit ratio. -/
theorem name_sim_eval {a b : String} {i u : Nat} (ha : a ≠ "") (hb : b ≠ "")
    (hta : pyTokens (pyLower a) ≠ []) (htb : pyTokens (pyLower b) ≠ [])
    (hi : interSize (pyTokens (pyLower a)) (pyTokens (pyLower b)) = i)
    (hu : unionSize (pyTokens (pyLower a)) (pyTokens (pyLower b)) = u) :
    calculate_name_similarity a b = (i : ℚ) / (u : ℚ) := by
  simp only [calculate_name_similarity]
  rw [if_neg (by simp [ha, hb]), if_neg (by simp [hta, htb]), hi, hu]

/-- Evaluation helper: unfold an address similarity to an explicit ratio. -/
theorem addr_sim_eval {a b : String} {i u : Nat} (ha : a ≠ "") (hb : b ≠ "")
    (hta : pyTokens (dropCommas (pyLower a)) ≠ [])
    (htb : pyTokens (dropCommas (pyLower b)) ≠ [])
    (hi : interSize (pyTokens (dropCommas (pyLower a))) (pyTokens (dropCommas (pyLower b))) = i)
    (hu : unionSize (pyTokens (dropCommas (pyLower a))) (pyTokens (dropCommas (pyLower b))) = u) :
    calculate_address_similarity a b = (i : ℚ) / (u : ℚ) := by
  simp only [calculate_address_similarity]
  rw [if_neg (by simp [ha, hb]), if_neg (by simp [hta, htb]), hi, hu]

example : calculate_name_similarity "John A. Smith" "John Smith" = 2/3 := by
  rw [name_sim_eval (i := 2) (u := 3) (by decide) (by decide) (by decide) (by decide)
    (by decide) (by decide)]
  norm_num

example :
    (verify_specialty "Cardio" (PyVal.dict [("specialty", PyVal.str "cardio care")])
      PyVal.none).matches_ = some true := rfl

example :
    (verify_full_name "" (PyVal.dict [("name", PyVal.str "John Smith")])
      PyVal.none).scraped_data_field_a = some (PyVal.str "John Smith") := rfl

example :
    (verify_license_number "ab1234" (PyVal.dict [])
      (PyVal.dict [("taxonomies", PyVal.list
        [PyVal.dict [("desc", PyVal.str "Cardiology"), ("license", PyVal.str "AB1234"),
          ("primary", PyVal.bool true)]])])
      "Cardiology").matches_ = some true := rfl

example :
    (verify_insurance_networks ["Aetna", "Cigna"] (PyVal.dict [])
      (PyVal.dict [("identifiers", PyVal.list
        [PyVal.dict [("desc", PyVal.str "MEDICAID enrolment"), ("issuer", PyVal.str "")],
         PyVal.dict [("desc", PyVal.str ""), ("issuer", PyVal.str "Cigna Health")]])])
      ).matches_ = some true := rfl

theorem strictBest_const {α : Type} (score : α → ℚ) (thr : ℚ) (xs : List α)
    (acc : Option α × ℚ) (h : ∀ x ∈ xs, score x ≤ thr) :
    strictBest score thr xs acc = acc := by
  induction xs with
  | nil => rfl
  | cons x xs ih =>
    have hx := h x (by simp)
    rw [strictBest, if_neg fun hc => absurd hx (not_le.mpr hc.2)]
    exact ih fun y hy => h y (by simp [hy])

theorem strictBest_from_some {α : Type} (score : α → ℚ) (thr : ℚ) :
    ∀ (xs : List α) (q0 : α) (s0 : ℚ), thr < s0 → s0 = score q0 →
    ∀ b s, strictBest score thr xs (some q0, s0) = (b, s) →
      s0 ≤ s ∧ thr < s ∧
      ((b = some q0 ∧ s = s0) ∨
        ∃ pre q post, xs = pre ++ q :: post ∧ b = some q ∧ s = score q ∧
          s0 < score q ∧ ∀ y ∈ pre, score y < s) ∧
      (∀ y ∈ xs, score y ≤ s) := by
  intro xs
  induction xs with
  | nil =>
    intro q0 s0 h0 hs0 b s hres
    rw [strictBest] at hres
    cases hres
    exact ⟨le_refl _, h0, Or.inl ⟨rfl, rfl⟩, by simp⟩
  | cons x xs ih =>
    intro q0 s0 h0 hs0 b s hres
    by_cases hx : score x > s0 ∧ score x > thr
    · rw [strictBest, if_pos hx] at hres
      obtain ⟨hge, hthr2, hor, hdom⟩ := ih x (score x) hx.2 rfl b s hres
      refine ⟨le_trans hx.1.le hge, hthr2, ?_, ?_⟩
      · rcases hor with ⟨hb, hs⟩ | ⟨pre, q, post, hxs, hb, hs, hgt, hpre⟩
        · exact Or.inr ⟨[], x, xs, rfl, hb, hs, hx.1, by simp⟩
        · refine Or.inr ⟨x :: pre, q, post, by simp [hxs], hb, hs, lt_trans hx.1 hgt, ?_⟩
          intro y hy
          rcases List.mem_cons.mp hy with hy | hy
          · subst hy; rw [hs]; exact hgt
          · exact hpre y hy
      · intro y hy
        rcases List.mem_cons.mp hy with hy | hy
        · subst hy; exact hge
        · exact hdom y hy
    · have hxle : score x ≤ s0 := by
        by_contra hgt
        exact hx ⟨lt_of_not_le hgt, lt_trans h0 (lt_of_not_le hgt)⟩
      rw [strictBest, if_neg fun hc => absurd hxle (not_le.mpr hc.1)] at hres
      obtain ⟨hge, hthr2, hor, hdom⟩ := ih q0 s0 h0 hs0 b s hres
      refine ⟨hge, hthr2, ?_, ?_⟩
      · rcases hor with h | ⟨pre, q, post, hxs, hb, hs, hgt, hpre⟩
        · exact Or.inl h
        · refine Or.inr ⟨x :: pre, q, post, by simp [hxs], hb, hs, hgt, ?_⟩
          intro y hy
          rcases List.mem_cons.mp hy with hy | hy
          · subst hy; rw [hs]; exact lt_of_le_of_lt hxle hgt
          · exact hpre y hy
      · intro y hy
        rcases List.mem_cons.mp hy with hy | hy
        · subst hy; exact le_trans hxle hge
        · exact hdom y hy

theorem strictBest_from_start {α : Type} (score : α → ℚ) (thr : ℚ) (hthr : 0 ≤ thr) :
    ∀ (xs : List α) (b : Option α) (s : ℚ),
      strictBest score thr xs (Option.none, 0) = (b, s) →
      (b = Option.none ∧ s = 0 ∧ ∀ y ∈ xs, score y ≤ thr) ∨
      (∃ pre q post, xs = pre ++ q :: post ∧ b = some q ∧ s = score q ∧
        thr < score q ∧ (∀ y ∈ pre, score y < score q) ∧
        (∀ y ∈ xs, score y ≤ score q)) := by
  intro xs
  induction xs with
  | nil =>
    intro b s hres
    rw [strictBest] at hres
    cases hres
    exact Or.inl ⟨rfl, rfl, by simp⟩
  | cons x xs ih =>
    intro b s hres
    by_cases hx : score x > 0 ∧ score x > thr
    · rw [strictBest, if_pos hx] at hres
      obtain ⟨hge, hthr2, hor, hdom⟩ :=
        strictBest_from_some score thr xs x (score x) hx.2 rfl b s hres
      rcases hor with ⟨hb, hs⟩ | ⟨pre, q, post, hxs, hb, hs, hgt, hpre⟩
      · refine Or.inr ⟨[], x, xs, rfl, hb, hs, hx.2, by simp, ?_⟩
        intro y hy
        rcases List.mem_cons.mp hy with hy | hy
        · subst hy; exact le_refl _
        · have := hdom y hy
          rw [hs] at this
          exact this
      · refine Or.inr ⟨x :: pre, q, post, by simp [hxs], hb, hs,
          lt_trans hx.2 hgt, ?_, ?_⟩
        · intro y hy
          rcases List.mem_cons.mp hy with hy | hy
          · subst hy; exact hgt
          · have := hpre y hy
            rw [hs] at this
            exact this
        · intro y hy
          rcases List.mem_cons.mp hy with hy | hy
          · subst hy; exact le_of_lt hgt
          · have := hdom y hy
            rw [hs] at this
            exact this
    · have hxle : score x ≤ thr := by
        by_contra hgt
        have hgt := lt_of_not_le hgt
        exact hx ⟨lt_of_le_of_lt hthr hgt, hgt⟩
      rw [strictBest, if_neg fun hc => absurd hxle (not_le.mpr hc.2)] at hres
      rcases ih b s hres with ⟨hb, hs, hall⟩ | ⟨pre, q, post, hxs, hb, hs, hgt, hpre, hdom⟩
      · refine Or.inl ⟨hb, hs, ?_⟩
        intro y hy
        rcases List.mem_cons.mp hy with hy | hy
        · subst hy; exact hxle
        · exact hall y hy
      · refine Or.inr ⟨x :: pre, q, post, by simp [hxs], hb, hs, hgt, ?_, ?_⟩
        · intro y hy
          rcases List.mem_cons.mp hy with hy | hy
          · subst hy; exact lt_of_le_of_lt hxle hgt
          · exact hpre y hy
        · intro y hy
          rcases List.mem_cons.mp hy with hy | hy
          · subst hy; exact le_trans hxle (le_of_lt hgt)
          · exact hdom y hy

theorem name_sim_nonneg (a b : String) : 0 ≤ calculate_name_similarity a b := by
  rw [calculate_name_similarity]
  split
  · exact le_refl 0
  · dsimp only
    split
    · exact le_refl 0
    · positivity

theorem addr_sim_nonneg (a b : String) : 0 ≤ calculate_address_similarity a b := by
  rw [calculate_address_similarity]
  split
  · exact le_refl 0
  · dsimp only
    split
    · exact le_refl 0
    · positivity

theorem name_sim_le_one (a b : String) : calculate_name_similarity a b ≤ 1 := by
  rw [calculate_name_similarity]
  split
  · norm_num
  · dsimp only
    split
    · norm_num
    · rename_i h1 h2
      rw [div_le_one]
      · have hsub : interSize (pyTokens (pyLower a)) (pyTokens (pyLower b)) ≤
            unionSize (pyTokens (pyLower a)) (pyTokens (pyLower b)) := by
          unfold interSize unionSize
          calc ((pyTokens (pyLower a)).dedup.filter fun x =>
                (pyTokens (pyLower b)).contains x).length
              ≤ (pyTokens (pyLower a)).dedup.length := List.length_filter_le _ _
            _ ≤ _ := by
              apply List.Subperm.length_le
              apply List.subperm_of_subset
              · exact (pyTokens (pyLower a)).nodup_dedup
              · intro x hx
                rw [List.mem_dedup]
                exact List.mem_append_left _ (List.mem_dedup.mp hx)
        exact_mod_cast hsub
      · have : (pyTokens (pyLower a)).dedup ≠ [] := by
          intro hnil
          rw [List.dedup_eq_nil] at hnil
          exact h2 (Or.inl hnil)
        have hpos : 0 < unionSize (pyTokens (pyLower a)) (pyTokens (pyLower b)) := by
          unfold unionSize
          rw [List.length_pos, Ne, List.dedup_eq_nil]
          intro happ
          rcases List.append_eq_nil.mp happ with ⟨h1, _⟩
          exact h2 (Or.inl h1)
        exact_mod_cast hpos

theorem name_sim_empty_snd (a : String) : calculate_name_similarity a "" = 0 := by
  rw [calculate_name_similarity, if_pos (Or.inr rfl)]

theorem provDisplayName_enc (p : Provider) :
    provDisplayName (Provider.enc p) = .str p.displayName := rfl

theorem provNameScore_enc (fn : String) (p : Provider) :
    provNameScore fn (Provider.enc p) =
      some (calculate_name_similarity fn p.displayName) := by
  rw [provNameScore, provDisplayName_enc]
  by_cases h : p.displayName = ""
  · rw [h]
    simp [PyVal.truthy, name_sim_empty_snd]
  · simp [PyVal.truthy, h]

theorem provSpecialtiesAux_enc : ∀ ts : List Taxonomy,
    provSpecialtiesAux (ts.map Taxonomy.enc) =
      (ts.filter fun t => t.desc ≠ "").map fun t => PyVal.str t.desc := by
  intro ts
  induction ts with
  | nil => rfl
  | cons t ts ih =>
    simp only [List.map_cons, provSpecialtiesAux, Taxonomy.enc]
    rw [show (PyVal.dict [("desc", .str t.desc), ("license", .str t.license),
      ("primary", .bool t.primary)]).getD "desc" (.str "") = .str t.desc from rfl]
    by_cases h : t.desc = ""
    · rw [if_neg (by simp [PyVal.truthy, h]), ih, List.filter_cons,
        if_neg (by simp [h])]
    · rw [if_pos (by simp [PyVal.truthy, h]), ih, List.filter_cons,
        if_pos (by simp [h]), List.map_cons]

theorem provSpecialties_enc (p : Provider) :
    provSpecialties (Provider.enc p) =
      (p.taxonomies.filter fun t => t.desc ≠ "").map fun t => PyVal.str t.desc := by
  rw [provSpecialties]
  rw [show (Provider.enc p).getD "taxonomies" (.list []) =
    .list (p.taxonomies.map Taxonomy.enc) from rfl]
  exact provSpecialtiesAux_enc p.taxonomies

theorem specAnyMatch_filter (sp : String) : ∀ ts : List Taxonomy,
    specAnyMatch sp ((ts.filter fun t => t.desc ≠ "").map fun t => PyVal.str t.desc) =
      some (ts.any fun t => t.desc ≠ "" && pyIn (pyLower sp) (pyLower t.desc)) := by
  intro ts
  induction ts with
  | nil => rfl
  | cons t ts ih =>
    by_cases h : t.desc = ""
    · rw [List.filter_cons, if_neg (by simp [h]), ih]
      simp [List.any_cons, h]
    · rw [List.filter_cons, if_pos (by simp [h]), List.map_cons]
      cases hx : pyIn (pyLower sp) (pyLower t.desc) with
      | true => simp [specAnyMatch, hx, List.any_cons, h]
      | false =>
        have hstep : specAnyMatch sp (PyVal.str t.desc ::
            ((ts.filter fun t => t.desc ≠ "").map fun t => PyVal.str t.desc)) =
            specAnyMatch sp ((ts.filter fun t => t.desc ≠ "").map fun t => PyVal.str t.desc) := by
          simp [specAnyMatch, hx]
        rw [hstep, ih, List.any_cons]
        simp [h, hx]

theorem specialty_score_enc (sp : String) (p : Provider) :
    specialty_score sp (Provider.enc p) = some (typedSpecScore sp p) := by
  rw [specialty_score, typedSpecScore, provSpecialties_enc]
  by_cases hnb : nonBlank sp = true
  · rw [if_pos hnb]
    dsimp only
    cases hfl : (p.taxonomies.filter fun t => t.desc ≠ "") with
    | nil =>
      have hany : (p.taxonomies.any fun t =>
          t.desc ≠ "" && pyIn (pyLower sp) (pyLower t.desc)) = false := by
        rw [List.any_eq_false]
        intro t ht hconj
        rw [Bool.and_eq_true] at hconj
        exact (List.filter_eq_nil_iff.mp hfl t ht) hconj.1
      rw [List.map_nil, if_neg (by simp),
        if_neg fun hc => by rw [hany] at hc; exact Bool.noConfusion hc.2]
    | cons hd tl =>
      rw [if_pos (by simp), ← hfl, specAnyMatch_filter]
      cases hany : (p.taxonomies.any fun t =>
          t.desc ≠ "" && pyIn (pyLower sp) (pyLower t.desc)) with
      | true => rw [if_pos ⟨hnb, rfl⟩]
      | false => rw [if_neg fun hc => Bool.noConfusion hc.2]
  · rw [if_neg hnb, if_neg fun hc => hnb hc.1]

theorem provScore_enc (fn sp : String) (p : Provider) :
    provScore fn sp (Provider.enc p) = some (typedScore fn sp p) := by
  rw [provScore, provNameScore_enc, specialty_score_enc, typedScore]

theorem selLoop_enc (fn sp : String) : ∀ (ps : List Provider) (b : Option Provider) (bs : ℚ),
    selLoop fn sp (ps.map Provider.enc) (b.map Provider.enc) bs =
      some (((strictBest (typedScore fn sp) (1/2) ps (b, bs)).1).map Provider.enc) := by
  intro ps
  induction ps with
  | nil => intro b bs; rfl
  | cons p ps ih =>
    intro b bs
    have henc : ∃ kvs, Provider.enc p = PyVal.dict kvs := ⟨_, rfl⟩
    obtain ⟨kvs, hkvs⟩ := henc
    rw [List.map_cons, hkvs, selLoop, ← hkvs, provScore_enc]
    dsimp only
    rw [strictBest]
    by_cases hc : typedScore fn sp p > bs ∧ typedScore fn sp p > 1/2
    · rw [if_pos hc, if_pos hc]
      exact ih (some p) (typedScore fn sp p)
    · rw [if_neg hc, if_neg hc]
      exact ih b bs

theorem get_best_enc (fn sp : String) (s : ScrapedData) :
    get_best_matching_provider fn sp (ScrapedData.enc s) =
      ((strictBest (typedScore fn sp) (1/2) s.npi_results (Option.none, 0)).1).map
        Provider.enc := by
  rw [get_best_matching_provider]
  rw [show (ScrapedData.enc s).getD "npi_data" (.dict []) =
    .dict [("results", .list (s.npi_results.map Provider.enc))] from rfl]
  rw [show (PyVal.dict [("results", .list (s.npi_results.map Provider.enc))]).getD
    "results" (.list []) = .list (s.npi_results.map Provider.enc) from rfl]
  cases hps : s.npi_results with
  | nil => rfl
  | cons p ps =>
    dsimp only
    rw [if_neg (by simp)]
    have := selLoop_enc fn sp (p :: ps) Option.none 0
    rw [show (Option.none : Option Provider).map Provider.enc = Option.none from rfl] at this
    rw [this]

theorem specialty_score_cases (sp : String) (p : PyVal) {c : ℚ}
    (h : specialty_score sp p = some c) : c = 0 ∨ c = 1 := by
  rw [specialty_score] at h
  by_cases hnb : nonBlank sp = true
  · rw [if_pos hnb] at h
    dsimp only at h
    by_cases hem : ¬ (provSpecialties p).isEmpty = true
    · rw [if_pos hem] at h
      rcases hm : specAnyMatch sp (provSpecialties p) with _ | b
      · rw [hm] at h; cases h
      · rw [hm] at h
        cases b
        · cases h; exact Or.inl rfl
        · cases h; exact Or.inr rfl
    · rw [if_neg hem] at h; cases h; exact Or.inl rfl
  · rw [if_neg hnb] at h; cases h; exact Or.inl rfl

theorem provNameScore_inv (fn : String) (q : PyVal) {n : ℚ}
    (h : provNameScore fn q = some n) :
    n = 0 ∨ ∃ nm, provDisplayName q = .str nm ∧ n = calculate_name_similarity fn nm := by
  rw [provNameScore] at h
  by_cases ht : (provDisplayName q).truthy = true
  · rw [if_pos ht] at h
    cases hd : provDisplayName q with
    | str s =>
      rw [hd] at h
      cases h
      exact Or.inr ⟨s, rfl, rfl⟩
    | none => rw [hd] at h; cases h
    | bool b => rw [hd] at h; cases h
    | int i => rw [hd] at h; cases h
    | list l => rw [hd] at h; cases h
    | dict kvs => rw [hd] at h; cases h
  · rw [if_neg ht] at h; cases h; exact Or.inl rfl

theorem selLoop_mem_score (fn sp : String) : ∀ (l : List PyVal) (b : Option PyVal) (bs : ℚ),
    (∀ q, b = some q → ∃ c, provScore fn sp q = some c ∧ c > 1/2) →
    ∀ q, selLoop fn sp l b bs = some (some q) →
      ∃ c, provScore fn sp q = some c ∧ c > 1/2 := by
  intro l
  induction l with
  | nil =>
    intro b bs hb q hres
    rw [selLoop] at hres
    cases hres
    exact hb q rfl
  | cons p l ih =>
    intro b bs hb q hres
    cases p with
    | dict kvs =>
      rw [selLoop] at hres
      rcases hsc : provScore fn sp (.dict kvs) with _ | c
      · rw [hsc] at hres; cases hres
      · rw [hsc] at hres
        dsimp only at hres
        by_cases hc : c > bs ∧ c > 1/2
        · rw [if_pos hc] at hres
          exact ih _ _ (fun q' hq' => by cases hq'; exact ⟨c, hsc, hc.2⟩) q hres
        · rw [if_neg hc] at hres
          exact ih b bs hb q hres
    | none => exact ih b bs hb q hres
    | bool v => exact ih b bs hb q hres
    | int v => exact ih b bs hb q hres
    | str v => exact ih b bs hb q hres
    | list v => exact ih b bs hb q hres

theorem get_best_selLoop (fn sp : String) (scraped : PyVal) (q : PyVal)
    (h : get_best_matching_provider fn sp scraped = some q) :
    ∃ c, provScore fn sp q = some c ∧ c > 1/2 := by
  rw [get_best_matching_provider] at h
  cases hr : (scraped.getD "npi_data" (.dict [])).getD "results" (.list []) with
  | list providers =>
    rw [hr] at h
    dsimp only at h
    by_cases hem : providers.isEmpty = true
    · rw [if_pos hem] at h; cases h
    · rw [if_neg hem] at h
      rcases hsel : selLoop fn sp providers Option.none 0 with _ | r
      · rw [hsel] at h; cases h
      · rw [hsel] at h
        dsimp only at h
        subst h
        exact selLoop_mem_score fn sp providers Option.none 0
          (fun q' hq' => by cases hq') q hsel
  | none => rw [hr] at h; cases h
  | bool v => rw [hr] at h; cases h
  | int v => rw [hr] at h; cases h
  | str v => rw [hr] at h; cases h
  | dict kvs => rw [hr] at h; cases h

/-- C1: on well-shaped candidates, get_best_matching_provider scores each as
0.7*nameScore + 0.3*specialtyScore and returns the first-seen candidate with
the maximal combined score among those strictly above 0.5; it returns none
when the list is empty or nothing clears 0.5, and a later candidate never
replaces an earlier one of equal score (the chosen candidate strictly beats
every earlier one). -/
theorem c1_selector_first_seen_max (fn sp : String) (s : ScrapedData) :
    (get_best_matching_provider fn sp (ScrapedData.enc s) = Option.none ↔
      ∀ p ∈ s.npi_results, typedScore fn sp p ≤ 1/2) ∧
    (∀ q, get_best_matching_provider fn sp (ScrapedData.enc s) = some q →
      ∃ p pre post, q = Provider.enc p ∧ s.npi_results = pre ++ p :: post ∧
        typedScore fn sp p > 1/2 ∧
        (∀ y ∈ pre, typedScore fn sp y < typedScore fn sp p) ∧
        (∀ y ∈ s.npi_results, typedScore fn sp y ≤ typedScore fn sp p)) := by
  obtain ⟨b, sc, hbs⟩ : ∃ b sc,
      strictBest (typedScore fn sp) (1/2) s.npi_results (Option.none, 0) = (b, sc) :=
    ⟨_, _, rfl⟩
  have hmain := strictBest_from_start (typedScore fn sp) (1/2) (by norm_num)
    s.npi_results b sc hbs
  rw [get_best_enc, hbs]
  constructor
  · constructor
    · intro hnone
      rcases hmain with ⟨hb, hs, hall⟩ | ⟨pre, qq, post, hxs, hb, hs, hgt, hpre, hdom⟩
      · exact hall
      · rw [hb] at hnone; exact absurd hnone (by simp)
    · intro hall
      have hconst := strictBest_const (typedScore fn sp) (1/2) s.npi_results
        (Option.none, 0) hall
      rw [hconst] at hbs
      cases hbs
      rfl
  · intro q hq
    rcases hmain with ⟨hb, hs, hall⟩ | ⟨pre, qq, post, hxs, hb, hs, hgt, hpre, hdom⟩
    · rw [hb] at hq; exact absurd hq (by simp)
    · rw [hb] at hq
      have hqq : Provider.enc qq = q := by simpa using hq
      exact ⟨qq, pre, post, hqq.symm, hxs, hgt, hpre, hdom⟩

/-- C1 witness: a single candidate whose name shares no token with the
claimed name scores 0 and is not admitted, so the selector returns none. -/
theorem c1_witness :
    get_best_matching_provider "John Smith" "" (ScrapedData.enc (npiBag [provXavierYu])) =
      Option.none := by
  apply (c1_selector_first_seen_max "John Smith" "" (npiBag [provXavierYu])).1.mpr
  intro p hp
  rw [show (npiBag [provXavierYu]).npi_results = [provXavierYu] from rfl] at hp
  rw [List.mem_singleton] at hp
  subst hp
  have hsim : calculate_name_similarity "John Smith"
      (Provider.displayName provXavierYu) = 0 := by
    rw [show Provider.displayName provXavierYu = "Xavier Yu" from rfl]
    rw [name_sim_eval (i := 0) (u := 4) (by decide) (by decide) (by decide) (by decide)
      (by decide) (by decide)]
    norm_num
  rw [typedScore, typedSpecScore, hsim]
  rw [if_neg fun hc => absurd hc.1 (by decide)]
  norm_num

/-- C3 counterexample: with claimed specialty "Internal Medicine
Subspecialty" and a candidate taxonomy description "Internal Medicine", the
description is a (case-insensitive) substring of the claimed specialty, yet
specialtyScore is 0.0, contradicting the claimed "or that description is a
substring of the claimed specialty" direction. -/
theorem c3_cex :
    pyIn (pyLower "Internal Medicine") (pyLower "Internal Medicine Subspecialty") = true ∧
    nonBlank "Internal Medicine Subspecialty" = true ∧
    specialty_score "Internal Medicine Subspecialty" (Provider.enc provIM) = some 0 :=
  ⟨by decide, by decide, rfl⟩

/-- C3 (amended): specialtyScore is 1.0 precisely when the claimed specialty
is non-blank and is itself a (case-insensitive) substring of some non-empty
taxonomy description of the candidate; in every other case (including a
blank claimed specialty) it is 0.0. The substring test is one-directional. -/
theorem c3_amended_specialty_score (sp : String) (p : Provider) :
    specialty_score sp (Provider.enc p) =
      some (if nonBlank sp = true ∧
          (p.taxonomies.any fun t => t.desc ≠ "" && pyIn (pyLower sp) (pyLower t.desc)) = true
        then 1 else 0) := by
  rw [specialty_score_enc, typedSpecScore]

/-- C9: any candidate returned by get_best_matching_provider has a string
display name whose token similarity with the claimed name is strictly
greater than 2/7; in particular a candidate sharing no name token (whose
similarity is 0) is never selected, whatever its specialty score. -/
theorem c9_selected_name_similarity (fn sp : String) (scraped q : PyVal)
    (h : get_best_matching_provider fn sp scraped = some q) :
    ∃ nm, provDisplayName q = PyVal.str nm ∧ calculate_name_similarity fn nm > 2/7 := by
  obtain ⟨c, hsc, hc⟩ := get_best_selLoop fn sp scraped q h
  rw [provScore] at hsc
  rcases hn : provNameScore fn q with _ | n
  · rw [hn] at hsc; cases hsc
  · rcases hs : specialty_score sp q with _ | sv
    · rw [hn, hs] at hsc; cases hsc
    · rw [hn, hs] at hsc
      dsimp only at hsc
      cases hsc
      have hs01 := specialty_score_cases sp q hs
      have hsle : sv ≤ 1 := by
        rcases hs01 with h1 | h1
        · rw [h1]; norm_num
        · rw [h1]
      have hn27 : n > 2/7 := by linarith
      rcases provNameScore_inv fn q hn with h0 | ⟨nm, hnm, hval⟩
      · rw [h0] at hn27; norm_num at hn27
      · exact ⟨nm, hnm, by rw [← hval]; exact hn27⟩

/-- C9 witness: a selected exact-name candidate indeed has similarity above
2/7. -/
theorem c9_witness :
    ∃ nm, provDisplayName (Provider.enc provJohnSmith) = PyVal.str nm ∧
      calculate_name_similarity "John Smith" nm > 2/7 := by
  apply c9_selected_name_similarity "John Smith" ""
    (ScrapedData.enc (npiBag [provJohnSmith]))
  rw [get_best_enc]
  have hsim : calculate_name_similarity "John Smith"
      (Provider.displayName provJohnSmith) = 1 := by
    rw [show Provider.displayName provJohnSmith = "John Smith" from rfl]
    rw [name_sim_eval (i := 2) (u := 2) (by decide) (by decide) (by decide) (by decide)
      (by decide) (by decide)]
    norm_num
  have hts : typedScore "John Smith" "" provJohnSmith = 7/10 := by
    rw [typedScore, typedSpecScore, hsim]
    rw [if_neg fun hc => absurd hc.1 (by decide)]
    norm_num
  rw [show (npiBag [provJohnSmith]).npi_results = [provJohnSmith] from rfl]
  rw [strictBest, if_pos (by rw [hts]; norm_num), strictBest]
  rfl

/-- C6 counterexample: the whitespace-only string is non-empty, yet its
self-similarity is 0.0 (it has no tokens), contradicting
tokenSimilarity(a,a) = 1.0 for every non-empty a. -/
theorem c6_cex : (" " : String) ≠ "" ∧ calculate_name_similarity " " " " = 0 := by
  refine ⟨by decide, ?_⟩
  simp only [calculate_name_similarity]
  rw [if_neg (by decide), if_pos (by decide)]

/-- C6 (amended): tokenSimilarity(a,a) = 1.0 for every string a with at
least one token (equivalently, a is not empty or whitespace-only), and
tokenSimilarity(a,"") = 0.0 for every a. -/
theorem c6_amended_similarity (a : String) (h : pyTokens (pyLower a) ≠ []) :
    calculate_name_similarity a a = 1 ∧ calculate_name_similarity a "" = 0 := by
  refine ⟨?_, name_sim_empty_snd a⟩
  have ha : a ≠ "" := by
    intro he
    subst he
    exact h rfl
  rw [calculate_name_similarity, if_neg (by simp [ha])]
  dsimp only
  rw [if_neg (by simp [h])]
  have hinter : interSize (pyTokens (pyLower a)) (pyTokens (pyLower a)) =
      (pyTokens (pyLower a)).dedup.length := by
    rw [interSize]
    congr 1
    rw [List.filter_eq_self]
    intro x hx
    have hxm : x ∈ pyTokens (pyLower a) := List.mem_dedup.mp hx
    simpa using hxm
  have hunion : unionSize (pyTokens (pyLower a)) (pyTokens (pyLower a)) =
      (pyTokens (pyLower a)).dedup.length := by
    rw [unionSize, ← List.card_toFinset, ← List.card_toFinset]
    congr 1
    simp
  rw [hinter, hunion]
  have hne : (pyTokens (pyLower a)).dedup.length ≠ 0 := by
    intro h0
    rw [List.length_eq_zero, List.dedup_eq_nil] at h0
    exact h h0
  rw [div_self (by exact_mod_cast hne)]

/-- C6 witness: a two-token name has self-similarity 1 and similarity 0
against the empty string. -/
theorem c6_witness :
    calculate_name_similarity "John Smith" "John Smith" = 1 ∧
    calculate_name_similarity "John Smith" "" = 0 :=
  c6_amended_similarity "John Smith" (by decide)

/-- C4 counterexample: for claimed "John A. Smith" and observed
"John Smith" the token similarity is 2/3, which is not at least 0.8, and
the full-name verifier does not return matches = true. -/
theorem c4_cex :
    ¬ (calculate_name_similarity "John A. Smith" "John Smith" ≥ 4/5) ∧
    (verify_full_name "John A. Smith" bagJohnName PyVal.none).matches_ ≠ some true := by
  have hsim : calculate_name_similarity "John A. Smith" "John Smith" = 2/3 := by
    rw [name_sim_eval (i := 2) (u := 3) (by decide) (by decide) (by decide) (by decide)
      (by decide) (by decide)]
    norm_num
  have hm : (verify_full_name "John A. Smith" bagJohnName PyVal.none).matches_ =
      some (decide (calculate_name_similarity "John A. Smith" "John Smith" ≥ 4/5)) := rfl
  constructor
  · rw [hsim]; norm_num
  · rw [hm, hsim, decide_eq_false (by norm_num : ¬ ((2:ℚ)/3 ≥ 4/5))]
    simp

/-- C4 (amended): for claimed "John A. Smith" and observed "John Smith" the
token similarity is exactly 2/3 (below the 0.8 threshold), so the full-name
verifier returns matches = false. -/
theorem c4_amended_name_similarity :
    calculate_name_similarity "John A. Smith" "John Smith" = 2/3 ∧
    (verify_full_name "John A. Smith" bagJohnName PyVal.none).matches_ = some false := by
  have hsim : calculate_name_similarity "John A. Smith" "John Smith" = 2/3 := by
    rw [name_sim_eval (i := 2) (u := 3) (by decide) (by decide) (by decide) (by decide)
      (by decide) (by decide)]
    norm_num
  have hm : (verify_full_name "John A. Smith" bagJohnName PyVal.none).matches_ =
      some (decide (calculate_name_similarity "John A. Smith" "John Smith" ≥ 4/5)) := rfl
  refine ⟨hsim, ?_⟩
  rw [hm, hsim, decide_eq_false (by norm_num : ¬ ((2:ℚ)/3 ≥ 4/5))]

/-- C10: with an empty claimed insurance-network list the verifier records
the input as absent and the match flag as unknown, for every evidence bag
and best-match value; an empty claimed set never produces matches = false. -/
theorem c10_empty_networks_unknown (scraped best : PyVal) :
    (verify_insurance_networks [] scraped best).input_field_a = Option.none ∧
    (verify_insurance_networks [] scraped best).matches_ = Option.none := by
  cases best with
  | dict kvs =>
    simp only [verify_insurance_networks]
    by_cases ht : (PyVal.dict kvs).truthy = true
    · rw [if_pos ht]
      rcases hid : (PyVal.dict kvs).getD "identifiers" (.list []) with _ | v | v | v | ids | ikvs
      · exact ⟨rfl, rfl⟩
      · exact ⟨rfl, rfl⟩
      · exact ⟨rfl, rfl⟩
      · exact ⟨rfl, rfl⟩
      · dsimp only
        rcases hscan : insScan ids with _ | found
        · exact ⟨rfl, rfl⟩
        · dsimp only
          by_cases hf : ¬ found.isEmpty = true
          · rw [if_pos hf]
            exact ⟨rfl, rfl⟩
          · rw [if_neg hf]
            exact ⟨rfl, rfl⟩
      · exact ⟨rfl, rfl⟩
    · rw [if_neg ht]
      exact ⟨rfl, rfl⟩
  | none => exact ⟨rfl, rfl⟩
  | bool v => exact ⟨rfl, rfl⟩
  | int v => exact ⟨rfl, rfl⟩
  | str v => exact ⟨rfl, rfl⟩
  | list v => exact ⟨rfl, rfl⟩

/-- C8: persisting a report whose verification identifier equals that of an
already-stored report is rejected by the unique constraint; the caller
receives a failed (HTTP 500) verification write and the stored rows are
unchanged — never silently overwritten. -/
theorem c8_duplicate_id_conflict (store : List StoredReport) (r : StoredReport)
    (h : ∃ row ∈ store, row.verification_id = r.verification_id) :
    persistReport store r = .httpError 500 store ∧
    insertReport store r = .error "duplicate key value violates unique constraint" := by
  have hany : (store.any fun row => row.verification_id = r.verification_id) = true := by
    rw [List.any_eq_true]
    obtain ⟨row, hm, he⟩ := h
    exact ⟨row, hm, by simp [he]⟩
  have hins : insertReport store r =
      .error "duplicate key value violates unique constraint" := by
    rw [insertReport, if_pos (by simpa using hany)]
  exact ⟨by rw [persistReport, hins], hins⟩

/-- C8 witness: inserting a second report with identifier "VER_1" next to a
stored one fails with a conflict and leaves the store unchanged. -/
theorem c8_witness :
    persistReport [sampleReport] sampleReport = .httpError 500 [sampleReport] ∧
    insertReport [sampleReport] sampleReport =
      .error "duplicate key value violates unique constraint" :=
  c8_duplicate_id_conflict [sampleReport] sampleReport ⟨sampleReport, by simp, rfl⟩

theorem verify_specialty_matches_inv (i : String) (scraped best : PyVal)
    (hm : (verify_specialty i scraped best).matches_ ≠ Option.none) :
    (verify_specialty i scraped best).scraped_data_field_a ≠ Option.none ∧
      nonBlank i = true := by
  rw [verify_specialty] at hm ⊢
  rcases hp : specialtyScan scraped best with ⟨found, src⟩
  rw [hp] at hm
  dsimp only at hm ⊢
  by_cases ht : found.truthy = true
  · rw [if_pos ht] at hm ⊢
    by_cases hnb : nonBlank i = true
    · exact ⟨by simp, hnb⟩
    · rw [if_neg hnb] at hm
      exact absurd rfl hm
  · rw [if_neg ht] at hm
    exact absurd rfl hm

theorem verify_license_matches_inv (i sp : String) (scraped best : PyVal)
    (hm : (verify_license_number i scraped best sp).matches_ ≠ Option.none) :
    (verify_license_number i scraped best sp).scraped_data_field_a ≠ Option.none ∧
      nonBlank i = true := by
  cases best with
  | dict kvs =>
    rw [verify_license_number] at hm ⊢
    dsimp only at hm ⊢
    by_cases ht : (PyVal.dict kvs).truthy = true
    · rw [if_pos ht] at hm ⊢
      rcases hx : (PyVal.dict kvs).get "taxonomies" with _ | v | v | v | taxs | tkvs
      · rw [hx] at hm; exact absurd rfl hm
      · rw [hx] at hm; exact absurd rfl hm
      · rw [hx] at hm; exact absurd rfl hm
      · rw [hx] at hm; exact absurd rfl hm
      · rw [hx] at hm
        dsimp only at hm ⊢
        rcases hsc : licenseScan sp taxs with _ | l
        · rw [hsc] at hm; exact absurd rfl hm
        · rw [hsc] at hm
          dsimp only at hm ⊢
          by_cases hnb : nonBlank i = true
          · exact ⟨by simp, hnb⟩
          · rw [if_neg hnb] at hm
            exact absurd rfl hm
      · rw [hx] at hm; exact absurd rfl hm
    · rw [if_neg ht] at hm
      exact absurd rfl hm
  | none => exact absurd rfl hm
  | bool v => exact absurd rfl hm
  | int v => exact absurd rfl hm
  | str v => exact absurd rfl hm
  | list v => exact absurd rfl hm

theorem verify_specialty_no_evidence (i : String) (best : PyVal)
    (hb : ¬ best.truthy = true) :
    verify_specialty i (PyVal.dict []) best =
      ⟨strInput i, Option.none, Option.none, Option.none⟩ := by
  rw [verify_specialty]
  have hscan : specialtyScan (PyVal.dict []) best = (.none, "") := by
    cases best with
    | dict kvs =>
      rw [specialtyScan, npiSpecialty, if_neg hb]
      rfl
    | none => rfl
    | bool v => rfl
    | int v => rfl
    | str v => rfl
    | list v => rfl
  rw [hscan]
  rfl

theorem verify_license_no_evidence (i sp : String) (scraped best : PyVal)
    (hb : ¬ best.truthy = true) :
    verify_license_number i scraped best sp =
      ⟨strInput i, Option.none, Option.none, Option.none⟩ := by
  cases best with
  | dict kvs =>
    rw [verify_license_number, if_neg hb]
  | none => rfl
  | bool v => rfl
  | int v => rfl
  | str v => rfl
  | list v => rfl

/-- C7 counterexample: with a wrongly-shaped (list-valued) loose specialty
and a usable claimed specialty, verify_specialty records the malformed value
as the observed value while matches stays unknown — malformed evidence is
not always degraded to observedValue = none as the claim states. -/
theorem c7_cex :
    (verify_specialty "Cardiology" (PyVal.dict [("specialty", PyVal.list [PyVal.str "x"])])
      PyVal.none).scraped_data_field_a = some (PyVal.list [PyVal.str "x"]) ∧
    (verify_specialty "Cardiology" (PyVal.dict [("specialty", PyVal.list [PyVal.str "x"])])
      PyVal.none).matches_ = Option.none :=
  ⟨rfl, rfl⟩

/-- C7 (amended): every field verifier is total (a FieldOutcome is returned
for every claimed value and every evidence shape; the blanket try/except
means no request failure). A match verdict is only ever computed when an
observed value was recorded and the claimed value is usable, and when the
best-match provider is absent or not a dict and the scraped bag yields
nothing for the field, the cited verifiers degrade to observedValue = none
and matches = unknown. A wrongly-shaped truthy value read at an unguarded
spot may however be carried into observedValue with matches = unknown. -/
theorem c7_amended_degrade (i sp : String) (scraped best : PyVal) :
    ((verify_specialty i scraped best).matches_ ≠ Option.none →
      (verify_specialty i scraped best).scraped_data_field_a ≠ Option.none ∧
        nonBlank i = true) ∧
    ((verify_license_number i scraped best sp).matches_ ≠ Option.none →
      (verify_license_number i scraped best sp).scraped_data_field_a ≠ Option.none ∧
        nonBlank i = true) ∧
    (¬ best.truthy = true →
      verify_specialty i (PyVal.dict []) best =
        ⟨strInput i, Option.none, Option.none, Option.none⟩ ∧
      verify_license_number i scraped best sp =
        ⟨strInput i, Option.none, Option.none, Option.none⟩) :=
  ⟨verify_specialty_matches_inv i scraped best,
   verify_license_matches_inv i sp scraped best,
   fun hb => ⟨verify_specialty_no_evidence i best hb,
     verify_license_no_evidence i sp scraped best hb⟩⟩

/-- C7 witness: at a concrete input the degradation conclusions hold. -/
theorem c7_witness :
    verify_specialty "Cardiology" (PyVal.dict []) PyVal.none =
      ⟨some "Cardiology", Option.none, Option.none, Option.none⟩ ∧
    verify_license_number "Cardiology" (PyVal.dict []) PyVal.none "Cardiology" =
      ⟨some "Cardiology", Option.none, Option.none, Option.none⟩ :=
  (c7_amended_degrade "Cardiology" "Cardiology" (PyVal.dict []) PyVal.none).2.2 (by decide)

theorem locNameScan_enc : ∀ locs : List ScrapedLocation,
    locNameScan (locs.map ScrapedLocation.enc) = Option.none ∨
      ∃ nm, locNameScan (locs.map ScrapedLocation.enc) = some (PyVal.str nm) := by
  intro locs
  induction locs with
  | nil => exact Or.inl rfl
  | cons l ls ih =>
    simp only [List.map_cons, locNameScan, ScrapedLocation.enc]
    by_cases h : l.doctor_name = ""
    · rw [show (PyVal.dict [("doctor_name", .str l.doctor_name), ("address", .str l.address),
        ("phone", .str l.phone)]).get "doctor_name" = .str l.doctor_name from rfl]
      rw [if_neg (by simp [PyVal.truthy, h])]
      exact ih
    · rw [show (PyVal.dict [("doctor_name", .str l.doctor_name), ("address", .str l.address),
        ("phone", .str l.phone)]).get "doctor_name" = .str l.doctor_name from rfl]
      rw [if_pos (by simp [PyVal.truthy, h])]
      exact Or.inr ⟨l.doctor_name, rfl⟩

theorem fullNameScan_enc (s : ScrapedData) (b : Option Provider) :
    fullNameScan (ScrapedData.enc s) (encBest b) = Option.none ∨
      ∃ nm src, fullNameScan (ScrapedData.enc s) (encBest b) = some (PyVal.str nm, src) := by
  rw [fullNameScan]
  by_cases h1 : npiComposedName (encBest b) ≠ ""
  · rw [if_pos h1]
    exact Or.inr ⟨_, _, rfl⟩
  · rw [if_neg h1]
    dsimp only
    rw [show (ScrapedData.enc s).get "name" = .str s.name from rfl]
    by_cases h2 : s.name = ""
    · rw [if_neg (by simp [PyVal.truthy, h2])]
      rw [show (ScrapedData.enc s).get "practice_locations" =
        .list (s.practice_locations.map ScrapedLocation.enc) from rfl]
      dsimp only
      rcases locNameScan_enc s.practice_locations with hn | ⟨nm, hv⟩
      · rw [hn]
        exact Or.inl rfl
      · rw [hv]
        exact Or.inr ⟨nm, _, rfl⟩
    · rw [if_pos (by simp [PyVal.truthy, h2])]
      exact Or.inr ⟨s.name, _, rfl⟩

theorem taxPrimaryScan_enc : ∀ ts : List Taxonomy,
    taxPrimaryScan (ts.map Taxonomy.enc) = Option.none ∨
      ∃ d, taxPrimaryScan (ts.map Taxonomy.enc) = some (PyVal.str d) := by
  intro ts
  induction ts with
  | nil => exact Or.inl rfl
  | cons t ts ih =>
    simp only [List.map_cons, taxPrimaryScan, Taxonomy.enc]
    by_cases h : pyEqTrue ((PyVal.dict [("desc", .str t.desc), ("license", .str t.license),
        ("primary", .bool t.primary)]).get "primary") = true
    · rw [if_pos h]
      exact Or.inr ⟨t.desc, rfl⟩
    · rw [if_neg h]
      exact ih

theorem taxFirstDescScan_enc : ∀ ts : List Taxonomy,
    taxFirstDescScan (ts.map Taxonomy.enc) = Option.none ∨
      ∃ d, taxFirstDescScan (ts.map Taxonomy.enc) = some (PyVal.str d) := by
  intro ts
  induction ts with
  | nil => exact Or.inl rfl
  | cons t ts ih =>
    simp only [List.map_cons, taxFirstDescScan, Taxonomy.enc]
    by_cases h : ((PyVal.dict [("desc", .str t.desc), ("license", .str t.license),
        ("primary", .bool t.primary)]).get "desc").truthy = true
    · rw [if_pos h]
      exact Or.inr ⟨t.desc, rfl⟩
    · rw [if_neg h]
      exact ih

theorem npiSpecialty_enc (b : Option Provider) :
    npiSpecialty (encBest b) = PyVal.none ∨
      ∃ d, npiSpecialty (encBest b) = PyVal.str d := by
  cases b with
  | none => exact Or.inl rfl
  | some p =>
    rw [show encBest (some p) = PyVal.dict [("basic", .dict [("first_name", .str p.first_name),
        ("last_name", .str p.last_name)]),
      ("taxonomies", .list (p.taxonomies.map Taxonomy.enc)),
      ("addresses", .list (p.addresses.map NpiAddress.enc)),
      ("practiceLocations", .list (p.practiceLocations.map NpiAddress.enc)),
      ("identifiers", .list (p.identifiers.map PayerId.enc))] from rfl, npiSpecialty]
    rw [if_pos (by simp [PyVal.truthy])]
    rw [show (PyVal.dict [("basic", .dict [("first_name", .str p.first_name),
        ("last_name", .str p.last_name)]),
      ("taxonomies", .list (p.taxonomies.map Taxonomy.enc)),
      ("addresses", .list (p.addresses.map NpiAddress.enc)),
      ("practiceLocations", .list (p.practiceLocations.map NpiAddress.enc)),
      ("identifiers", .list (p.identifiers.map PayerId.enc))]).get "taxonomies" =
        .list (p.taxonomies.map Taxonomy.enc) from rfl]
    dsimp only
    by_cases hemp : ¬ (p.taxonomies.map Taxonomy.enc).isEmpty = true
    · rw [if_pos hemp]
      rcases taxPrimaryScan_enc p.taxonomies with hn | ⟨d, hv⟩
      · rw [hn]
        dsimp only [Option.getD]
        rw [if_neg (by simp [PyVal.truthy])]
        rcases taxFirstDescScan_enc p.taxonomies with hn2 | ⟨d2, hv2⟩
        · rw [hn2]
          exact Or.inl rfl
        · rw [hv2]
          exact Or.inr ⟨d2, rfl⟩
      · rw [hv]
        dsimp only [Option.getD]
        by_cases ht : (PyVal.str d).truthy = true
        · rw [if_pos ht]
          exact Or.inr ⟨d, rfl⟩
        · rw [if_neg ht]
          rcases taxFirstDescScan_enc p.taxonomies with hn2 | ⟨d2, hv2⟩
          · rw [hn2]
            exact Or.inl rfl
          · rw [hv2]
            exact Or.inr ⟨d2, rfl⟩
    · rw [if_neg hemp]
      exact Or.inl rfl

theorem specialtyScan_enc_truthy (s : ScrapedData) (b : Option Provider)
    (ht : (specialtyScan (ScrapedData.enc s) (encBest b)).1.truthy = true) :
    ∃ nm, (specialtyScan (ScrapedData.enc s) (encBest b)).1 = PyVal.str nm := by
  rw [specialtyScan] at ht ⊢
  rcases npiSpecialty_enc b with hn | ⟨d, hv⟩
  · rw [hn] at ht ⊢
    rw [if_neg (by simp [PyVal.truthy])] at ht ⊢
    dsimp only at ht ⊢
    rw [show (ScrapedData.enc s).get "specialty" = .str s.specialty from rfl] at ht ⊢
    by_cases h2 : (PyVal.str s.specialty).truthy = true
    · rw [if_pos h2] at ht ⊢
      exact ⟨s.specialty, rfl⟩
    · rw [if_neg h2] at ht ⊢
      rw [show (ScrapedData.enc s).get "services_offered" =
        .list (s.services_offered.map PyVal.str) from rfl] at ht ⊢
      cases hsv : s.services_offered with
      | nil => rw [hsv] at ht; exact absurd ht (by decide)
      | cons x xs => exact ⟨x, rfl⟩
  · rw [hv] at ht ⊢
    by_cases h1 : (PyVal.str d).truthy = true
    · rw [if_pos h1] at ht ⊢
      exact ⟨d, rfl⟩
    · rw [if_neg h1] at ht ⊢
      dsimp only at ht ⊢
      rw [show (ScrapedData.enc s).get "specialty" = .str s.specialty from rfl] at ht ⊢
      by_cases h2 : (PyVal.str s.specialty).truthy = true
      · rw [if_pos h2] at ht ⊢
        exact ⟨s.specialty, rfl⟩
      · rw [if_neg h2] at ht ⊢
        rw [show (ScrapedData.enc s).get "services_offered" =
          .list (s.services_offered.map PyVal.str) from rfl] at ht ⊢
        cases hsv : s.services_offered with
        | nil => rw [hsv] at ht; exact absurd ht (by decide)
        | cons x xs => exact ⟨x, rfl⟩

theorem phoneNpiScan_enc : ∀ es : List NpiAddress,
    phoneNpiScan (es.map NpiAddress.enc) = Option.none ∨
      ∃ t, phoneNpiScan (es.map NpiAddress.enc) = some (PyVal.str t) := by
  intro es
  induction es with
  | nil => exact Or.inl rfl
  | cons a es ih =>
    simp only [List.map_cons, phoneNpiScan, NpiAddress.enc]
    by_cases h : ((PyVal.dict [("address_1", .str a.address_1), ("address_2", .str a.address_2),
        ("city", .str a.city), ("state", .str a.state), ("postal_code", .str a.postal_code),
        ("telephone_number", .str a.telephone_number),
        ("address_purpose", .str a.address_purpose)]).get "telephone_number").truthy = true
    · rw [if_pos h]
      exact Or.inr ⟨a.telephone_number, rfl⟩
    · rw [if_neg h]
      exact ih

theorem locPhoneScan_enc : ∀ locs : List ScrapedLocation,
    locPhoneScan (locs.map ScrapedLocation.enc) = Option.none ∨
      ∃ t, locPhoneScan (locs.map ScrapedLocation.enc) = some (PyVal.str t) := by
  intro locs
  induction locs with
  | nil => exact Or.inl rfl
  | cons l ls ih =>
    simp only [List.map_cons, locPhoneScan, ScrapedLocation.enc]
    by_cases h : ((PyVal.dict [("doctor_name", .str l.doctor_name),
        ("address", .str l.address), ("phone", .str l.phone)]).get "phone").truthy = true
    · rw [if_pos h]
      exact Or.inr ⟨l.phone, rfl⟩
    · rw [if_neg h]
      exact ih

theorem npiAddrEntries_enc (p : Provider) :
    npiAddrEntries (Provider.enc p) =
      (p.addresses ++ p.practiceLocations).map NpiAddress.enc := by
  rw [show Provider.enc p = PyVal.dict [("basic", .dict [("first_name", .str p.first_name),
      ("last_name", .str p.last_name)]),
    ("taxonomies", .list (p.taxonomies.map Taxonomy.enc)),
    ("addresses", .list (p.addresses.map NpiAddress.enc)),
    ("practiceLocations", .list (p.practiceLocations.map NpiAddress.enc)),
    ("identifiers", .list (p.identifiers.map PayerId.enc))] from rfl, npiAddrEntries]
  rw [if_pos (by simp [PyVal.truthy])]
  rw [show (PyVal.dict [("basic", .dict [("first_name", .str p.first_name),
      ("last_name", .str p.last_name)]),
    ("taxonomies", .list (p.taxonomies.map Taxonomy.enc)),
    ("addresses", .list (p.addresses.map NpiAddress.enc)),
    ("practiceLocations", .list (p.practiceLocations.map NpiAddress.enc)),
    ("identifiers", .list (p.identifiers.map PayerId.enc))]).getD "addresses" (.list []) =
      .list (p.addresses.map NpiAddress.enc) from rfl]
  rw [show (PyVal.dict [("basic", .dict [("first_name", .str p.first_name),
      ("last_name", .str p.last_name)]),
    ("taxonomies", .list (p.taxonomies.map Taxonomy.enc)),
    ("addresses", .list (p.addresses.map NpiAddress.enc)),
    ("practiceLocations", .list (p.practiceLocations.map NpiAddress.enc)),
    ("identifiers", .list (p.identifiers.map PayerId.enc))]).getD "practiceLocations"
      (.list []) = .list (p.practiceLocations.map NpiAddress.enc) from rfl]
  dsimp only
  rw [List.map_append]

theorem phoneScan_enc (s : ScrapedData) (b : Option Provider) :
    phoneScan (ScrapedData.enc s) (encBest b) = Option.none ∨
      ∃ t src, phoneScan (ScrapedData.enc s) (encBest b) = some (PyVal.str t, src) := by
  rw [phoneScan]
  have hnpi : phoneNpiScan (npiAddrEntries (encBest b)) = Option.none ∨
      ∃ t, phoneNpiScan (npiAddrEntries (encBest b)) = some (PyVal.str t) := by
    cases b with
    | none => exact Or.inl rfl
    | some p =>
      rw [show encBest (some p) = Provider.enc p from rfl, npiAddrEntries_enc]
      exact phoneNpiScan_enc _
  rcases hnpi with hn | ⟨t, hv⟩
  · rw [hn]
    dsimp only
    rw [show (ScrapedData.enc s).get "phone_number" = .str s.phone_number from rfl]
    by_cases h2 : (PyVal.str s.phone_number).truthy = true
    · rw [if_pos h2]
      exact Or.inr ⟨s.phone_number, _, rfl⟩
    · rw [if_neg h2]
      rw [show (ScrapedData.enc s).get "practice_locations" =
        .list (s.practice_locations.map ScrapedLocation.enc) from rfl]
      dsimp only
      rcases locPhoneScan_enc s.practice_locations with hn2 | ⟨t2, hv2⟩
      · rw [hn2]
        exact Or.inl rfl
      · rw [hv2]
        exact Or.inr ⟨t2, _, rfl⟩
  · rw [hv]
    exact Or.inr ⟨t, _, rfl⟩

theorem bool_eq_false {b : Bool} (h : ¬ b = true) : b = false := by
  cases b
  · rfl
  · exact absurd rfl h

theorem full_name_tristate (i : String) (s : ScrapedData) (b : Option Provider) :
    (verify_full_name i (ScrapedData.enc s) (encBest b)).matches_ = Option.none ↔
      (nonBlank i = false ∨
        (verify_full_name i (ScrapedData.enc s) (encBest b)).scraped_data_field_a =
          Option.none) := by
  rcases fullNameScan_enc s b with hn | ⟨nm, src, hv⟩
  · rw [verify_full_name, hn]
    simp
  · rw [verify_full_name, hv]
    dsimp only
    by_cases hnb : nonBlank i = true
    · rw [if_pos hnb, hnb]
      simp
    · rw [if_neg hnb]
      simp [bool_eq_false hnb]

theorem specialty_tristate (i : String) (s : ScrapedData) (b : Option Provider) :
    (verify_specialty i (ScrapedData.enc s) (encBest b)).matches_ = Option.none ↔
      (nonBlank i = false ∨
        (verify_specialty i (ScrapedData.enc s) (encBest b)).scraped_data_field_a =
          Option.none) := by
  rw [verify_specialty]
  rcases hp : specialtyScan (ScrapedData.enc s) (encBest b) with ⟨found, src⟩
  dsimp only
  by_cases ht : found.truthy = true
  · obtain ⟨nm, hnm⟩ := specialtyScan_enc_truthy s b (by rw [hp]; exact ht)
    rw [hp] at hnm
    dsimp only at hnm
    subst hnm
    rw [if_pos ht]
    by_cases hnb : nonBlank i = true
    · rw [if_pos hnb, hnb]
      simp
    · rw [if_neg hnb]
      simp [bool_eq_false hnb]
  · rw [if_neg ht]
    simp

theorem phone_tristate (i : String) (s : ScrapedData) (b : Option Provider) :
    (verify_phone_number i (ScrapedData.enc s) (encBest b)).matches_ = Option.none ↔
      (nonBlank i = false ∨
        (verify_phone_number i (ScrapedData.enc s) (encBest b)).scraped_data_field_a =
          Option.none) := by
  rcases phoneScan_enc s b with hn | ⟨t, src, hv⟩
  · rw [verify_phone_number, hn]
    simp
  · rw [verify_phone_number, hv]
    dsimp only
    by_cases hnb : nonBlank i = true
    · rw [if_pos hnb, hnb]
      simp
    · rw [if_neg hnb]
      simp [bool_eq_false hnb]

theorem addrDirStage_tristate (i : String) (scraped : PyVal) :
    (addrDirStage i scraped).matches_ = Option.none ↔
      (nonBlank i = false ∨ (addrDirStage i scraped).scraped_data_field_a = Option.none) := by
  rw [addrDirStage]
  dsimp only
  rcases hp : scraped.get "practice_locations" with _ | v | v | v | locs | kvs
  · simp
  · simp
  · simp
  · simp
  · cases locs with
    | nil => simp
    | cons l ls =>
      dsimp only
      cases l with
      | dict lkvs =>
        dsimp only
        by_cases ha : ((PyVal.dict lkvs).get "address").truthy = true
        · rw [if_pos ha]
          by_cases hnb : nonBlank i = true
          · rw [if_pos hnb]
            rcases hav : (PyVal.dict lkvs).get "address" with _ | v | v | av | v | akvs
            · simp [hnb]
            · simp [hnb]
            · simp [hnb]
            · simp [hnb]
            · simp [hnb]
            · simp [hnb]
          · rw [if_neg hnb]
            simp [bool_eq_false hnb]
        · rw [if_neg ha]
          simp
      | none => simp
      | bool v => simp
      | int v => simp
      | str v => simp
      | list v => simp
  · simp

theorem address_tristate (i : String) (scraped best : PyVal) :
    (verify_address i scraped best).matches_ = Option.none ↔
      (nonBlank i = false ∨
        (verify_address i scraped best).scraped_data_field_a = Option.none) := by
  rw [verify_address]
  dsimp only
  rcases hloop : addrLoop i (npiAddrEntries best) (Option.none, 0) with ⟨ob, sc⟩
  cases ob with
  | some f =>
    dsimp only
    by_cases hnb : nonBlank i = true
    · rw [if_pos hnb, hnb]
      simp
    · rw [if_neg hnb]
      simp [bool_eq_false hnb]
  | none =>
    dsimp only
    by_cases hg : (scraped.get "address").truthy = true
    · rw [if_pos hg]
      rcases hgv : scraped.get "address" with _ | v | v | gs | v | gkvs
      · simp
      · simp
      · simp
      · dsimp only
        by_cases hst : pyStrip gs ≠ ""
        · rw [if_pos hst]
          by_cases hnb : nonBlank i = true
          · rw [if_pos hnb, hnb]
            simp
          · rw [if_neg hnb]
            simp [bool_eq_false hnb]
        · rw [if_neg hst]
          exact addrDirStage_tristate i scraped
      · simp
      · simp
    · rw [if_neg hg]
      exact addrDirStage_tristate i scraped

theorem license_tristate (i sp : String) (scraped best : PyVal) :
    (verify_license_number i scraped best sp).matches_ = Option.none ↔
      (nonBlank i = false ∨
        (verify_license_number i scraped best sp).scraped_data_field_a = Option.none) := by
  cases best with
  | dict kvs =>
    rw [verify_license_number]
    dsimp only
    by_cases ht : (PyVal.dict kvs).truthy = true
    · rw [if_pos ht]
      rcases hx : (PyVal.dict kvs).get "taxonomies" with _ | v | v | v | taxs | tkvs
      · simp
      · simp
      · simp
      · simp
      · dsimp only
        rcases hsc : licenseScan sp taxs with _ | l
        · simp
        · dsimp only
          by_cases hnb : nonBlank i = true
          · rw [if_pos hnb, hnb]
            simp
          · rw [if_neg hnb]
            simp [bool_eq_false hnb]
      · simp
    · rw [if_neg ht]
      simp
  | none => simp [verify_license_number]
  | bool v => simp [verify_license_number]
  | int v => simp [verify_license_number]
  | str v => simp [verify_license_number]
  | list v => simp [verify_license_number]

theorem services_tristate (i : String) (scraped best : PyVal) :
    (verify_services_offered i scraped best).matches_ = Option.none ↔
      (nonBlank i = false ∨
        (verify_services_offered i scraped best).scraped_data_field_a = Option.none) := by
  rw [verify_services_offered]
  dsimp only
  rcases hp : scraped.get "services_offered" with _ | v | v | v | svcs | kvs
  · simp
  · simp
  · simp
  · simp
  · dsimp only
    by_cases hs : ¬ svcs.isEmpty = true
    · rw [if_pos hs]
      by_cases hnb : nonBlank i = true
      · rw [if_pos hnb, hnb]
        simp
      · rw [if_neg hnb]
        simp [bool_eq_false hnb]
    · rw [if_neg hs]
      simp
  · simp

theorem insurance_tristate (ins : List String) (scraped best : PyVal) :
    (verify_insurance_networks ins scraped best).matches_ = Option.none ↔
      (ins = [] ∨
        (verify_insurance_networks ins scraped best).scraped_data_field_a = Option.none) := by
  cases best with
  | dict kvs =>
    simp only [verify_insurance_networks]
    by_cases ht : (PyVal.dict kvs).truthy = true
    · rw [if_pos ht]
      rcases hid : (PyVal.dict kvs).getD "identifiers" (.list []) with _ | v | v | v | ids | ikvs
      · simp
      · simp
      · simp
      · simp
      · dsimp only
        rcases hscan : insScan ids with _ | found
        · simp
        · dsimp only
          by_cases hf : ¬ found.isEmpty = true
          · rw [if_pos hf]
            by_cases hi : ¬ ins.isEmpty = true
            · rw [if_pos hi]
              simp [List.isEmpty_iff] at hi
              simp [hi]
            · rw [if_neg hi]
              simp only [not_not] at hi
              simp [List.isEmpty_iff] at hi
              simp [hi]
          · rw [if_neg hf]
            simp
      · simp
    · rw [if_neg ht]
      simp
  | none => simp [verify_insurance_networks]
  | bool v => simp [verify_insurance_networks]
  | int v => simp [verify_insurance_networks]
  | str v => simp [verify_insurance_networks]
  | list v => simp [verify_insurance_networks]

/-- C2 counterexample: a whitespace-only claimed address is recorded as a
present inputValue, an observed address is present, and yet matches is
unknown — refuting "matches is unknown iff inputValue is absent or
observedValue is absent". -/
theorem c2_cex :
    verify_address " " (PyVal.dict [("address", PyVal.str "100 Main St")]) PyVal.none =
      ⟨some " ", some (PyVal.str "100 Main St"), some "Google Places", Option.none⟩ :=
  rfl

/-- C2 (amended): for every FieldOutcome produced by the seven field
verifiers on well-shaped evidence, matches is unknown iff the claimed value
is absent or blank (whitespace-only; for insurance networks, the empty
list) or the observedValue is absent; whenever the claimed value is usable
and an observedValue is present, matches is some deterministic boolean
given by the field's comparison rule. -/
theorem c2_amended_tristate (i : String) (ins : List String) (s : ScrapedData)
    (b : Option Provider) :
    ((verify_full_name i (ScrapedData.enc s) (encBest b)).matches_ = Option.none ↔
      (nonBlank i = false ∨
        (verify_full_name i (ScrapedData.enc s) (encBest b)).scraped_data_field_a =
          Option.none)) ∧
    ((verify_specialty i (ScrapedData.enc s) (encBest b)).matches_ = Option.none ↔
      (nonBlank i = false ∨
        (verify_specialty i (ScrapedData.enc s) (encBest b)).scraped_data_field_a =
          Option.none)) ∧
    ((verify_address i (ScrapedData.enc s) (encBest b)).matches_ = Option.none ↔
      (nonBlank i = false ∨
        (verify_address i (ScrapedData.enc s) (encBest b)).scraped_data_field_a =
          Option.none)) ∧
    ((verify_phone_number i (ScrapedData.enc s) (encBest b)).matches_ = Option.none ↔
      (nonBlank i = false ∨
        (verify_phone_number i (ScrapedData.enc s) (encBest b)).scraped_data_field_a =
          Option.none)) ∧
    ((verify_license_number i (ScrapedData.enc s) (encBest b) i).matches_ = Option.none ↔
      (nonBlank i = false ∨
        (verify_license_number i (ScrapedData.enc s) (encBest b) i).scraped_data_field_a =
          Option.none)) ∧
    ((verify_insurance_networks ins (ScrapedData.enc s) (encBest b)).matches_ =
        Option.none ↔
      (ins = [] ∨
        (verify_insurance_networks ins (ScrapedData.enc s) (encBest b)).scraped_data_field_a =
          Option.none)) ∧
    ((verify_services_offered i (ScrapedData.enc s) (encBest b)).matches_ = Option.none ↔
      (nonBlank i = false ∨
        (verify_services_offered i (ScrapedData.enc s) (encBest b)).scraped_data_field_a =
          Option.none)) :=
  ⟨full_name_tristate i s b, specialty_tristate i s b,
   address_tristate i (ScrapedData.enc s) (encBest b),
   phone_tristate i s b,
   license_tristate i i (ScrapedData.enc s) (encBest b),
   insurance_tristate ins (ScrapedData.enc s) (encBest b),
   services_tristate i (ScrapedData.enc s) (encBest b)⟩

theorem addrLoop_keep (i : String) (hnb : ¬ nonBlank i = true) :
    ∀ (es : List NpiAddress) (x : String) (bs : ℚ),
      addrLoop i (es.map NpiAddress.enc) (some x, bs) = (some x, bs) := by
  intro es
  induction es with
  | nil => intro x bs; rfl
  | cons a es ih =>
    intro x bs
    obtain ⟨kvs, hkvs⟩ : ∃ kvs, NpiAddress.enc a = PyVal.dict kvs := ⟨_, rfl⟩
    rw [List.map_cons, hkvs, addrLoop, ← hkvs]
    dsimp only
    by_cases hf : pyStrip (formatNpiAddress (NpiAddress.enc a)) ≠ ""
    · rw [if_pos hf, if_neg hnb]
      exact ih x bs
    · rw [if_neg hf]
      exact ih x bs

theorem addrLoop_blank (i : String) (hnb : ¬ nonBlank i = true) :
    ∀ (es : List NpiAddress) (bs : ℚ),
      addrLoop i (es.map NpiAddress.enc) (Option.none, bs) =
        (((es.map fun a => formatNpiAddress a.enc).filter fun f => pyStrip f ≠ "").head?, bs) := by
  intro es
  induction es with
  | nil => intro bs; rfl
  | cons a es ih =>
    intro bs
    obtain ⟨kvs, hkvs⟩ : ∃ kvs, NpiAddress.enc a = PyVal.dict kvs := ⟨_, rfl⟩
    rw [List.map_cons, hkvs, addrLoop, ← hkvs]
    dsimp only
    by_cases hf : pyStrip (formatNpiAddress (NpiAddress.enc a)) ≠ ""
    · rw [if_pos hf, if_neg hnb]
      rw [addrLoop_keep i hnb]
      rw [List.map_cons, List.filter_cons, if_pos (by simpa using hf)]
      rfl
    · rw [if_neg hf, ih]
      rw [List.map_cons, List.filter_cons, if_neg (by simpa using hf)]

theorem addrLoop_enc (i : String) (hnb : nonBlank i = true) :
    ∀ (es : List NpiAddress) (b : Option String) (bs : ℚ), 0 ≤ bs →
      addrLoop i (es.map NpiAddress.enc) (b, bs) =
        strictBest (calculate_address_similarity i) 0
          ((es.map fun a => formatNpiAddress a.enc).filter fun f => pyStrip f ≠ "") (b, bs) := by
  intro es
  induction es with
  | nil => intro b bs h; rfl
  | cons a es ih =>
    intro b bs hbs
    obtain ⟨kvs, hkvs⟩ : ∃ kvs, NpiAddress.enc a = PyVal.dict kvs := ⟨_, rfl⟩
    rw [List.map_cons, hkvs, addrLoop, ← hkvs]
    dsimp only
    by_cases hf : pyStrip (formatNpiAddress (NpiAddress.enc a)) ≠ ""
    · have hflt : (formatNpiAddress (NpiAddress.enc a) ::
          (es.map fun a => formatNpiAddress a.enc)).filter (fun f => pyStrip f ≠ "") =
          formatNpiAddress (NpiAddress.enc a) ::
            ((es.map fun a => formatNpiAddress a.enc).filter fun f => pyStrip f ≠ "") := by
        rw [List.filter_cons, if_pos (by simpa using hf)]
      rw [if_pos hf, if_pos hnb, List.map_cons, hflt, strictBest]
      by_cases hcond : calculate_address_similarity i (formatNpiAddress (NpiAddress.enc a)) > bs
      · rw [if_pos hcond, if_pos ⟨hcond, lt_of_le_of_lt hbs hcond⟩]
        exact ih _ _ (addr_sim_nonneg i _)
      · rw [if_neg hcond, if_neg fun hc => hcond hc.1]
        exact ih b bs hbs
    · have hflt : (formatNpiAddress (NpiAddress.enc a) ::
          (es.map fun a => formatNpiAddress a.enc)).filter (fun f => pyStrip f ≠ "") =
          ((es.map fun a => formatNpiAddress a.enc).filter fun f => pyStrip f ≠ "") := by
        rw [List.filter_cons, if_neg (by simpa using hf)]
      rw [if_neg hf, List.map_cons, hflt]
      exact ih b bs hbs

/-- C5 counterexample: the best-match provider's only address entry has
purpose "MAILING", yet the address verifier draws its observed value from
it and reports a match — the code has no purpose = "LOCATION" filter. -/
theorem c5_cex :
    (provMailing.addresses.all fun a => a.address_purpose = "MAILING") = true ∧
    (verify_address "100 Main St, Springfield, IL" (PyVal.dict [])
      (Provider.enc provMailing)).scraped_data_field_a =
        some (PyVal.str "100 Main St, Springfield, IL 62701") ∧
    (verify_address "100 Main St, Springfield, IL" (PyVal.dict [])
      (Provider.enc provMailing)).matches_ = some true := by
  have hsim : calculate_address_similarity "100 Main St, Springfield, IL"
      "100 Main St, Springfield, IL 62701" = 5/6 := by
    rw [addr_sim_eval (i := 5) (u := 6) (by decide) (by decide) (by decide) (by decide)
      (by decide) (by decide)]
    norm_num
  have hloop : addrLoop "100 Main St, Springfield, IL"
      (npiAddrEntries (Provider.enc provMailing)) (Option.none, 0) =
      (some "100 Main St, Springfield, IL 62701", 5/6) := by
    rw [npiAddrEntries_enc, addrLoop_enc _ (by decide) _ _ _ (le_refl 0)]
    rw [show ((provMailing.addresses ++ provMailing.practiceLocations).map
        (fun a => formatNpiAddress a.enc)).filter (fun f => pyStrip f ≠ "") =
      ["100 Main St, Springfield, IL 62701"] from by decide]
    rw [strictBest, if_pos ⟨by rw [hsim]; norm_num, by rw [hsim]; norm_num⟩, strictBest, hsim]
  refine ⟨by decide, ?_, ?_⟩
  · rw [verify_address]
    dsimp only
    rw [hloop]
  · rw [verify_address]
    dsimp only
    rw [hloop]
    dsimp only
    rw [if_pos (by decide : nonBlank "100 Main St, Springfield, IL" = true)]
    rw [decide_eq_true (by norm_num : ((5:ℚ)/6 ≥ 3/5))]

/-- C5 (amended): the address verifier draws its first-choice observed value
from all of the best-match candidate's address and practice-location entries
regardless of purpose (no "LOCATION" filter exists), formatted as
"line1 line2, city, state postal"; with a usable claimed address it keeps
the first entry of strictly maximal positive similarity (an entry is only
kept when its similarity strictly exceeds the running best, so if every
candidate has similarity 0 none is kept and the verifier falls through to
the other sources), and matches = true iff that similarity is at least 0.6;
with no usable claimed address it keeps the first formatted entry and
matches stays unknown. -/
theorem c5_amended_address_selection (i : String) (p : Provider) :
    (nonBlank i = true →
      ((verify_address i (PyVal.dict []) (Provider.enc p)).scraped_data_field_a =
          Option.none →
        ∀ c ∈ p.addrCands, calculate_address_similarity i c = 0) ∧
      (∀ v, (verify_address i (PyVal.dict []) (Provider.enc p)).scraped_data_field_a =
          some v →
        ∃ c pre post, v = PyVal.str c ∧ p.addrCands = pre ++ c :: post ∧
          0 < calculate_address_similarity i c ∧
          (∀ y ∈ pre, calculate_address_similarity i y < calculate_address_similarity i c) ∧
          (∀ y ∈ p.addrCands,
            calculate_address_similarity i y ≤ calculate_address_similarity i c) ∧
          (verify_address i (PyVal.dict []) (Provider.enc p)).matches_ =
            some (decide (calculate_address_similarity i c ≥ 3/5)))) ∧
    (nonBlank i = false →
      (verify_address i (PyVal.dict []) (Provider.enc p)).scraped_data_field_a =
        p.addrCands.head?.map PyVal.str ∧
      (verify_address i (PyVal.dict []) (Provider.enc p)).matches_ = Option.none) := by
  constructor
  · intro hnb
    obtain ⟨ob, sc, hbs⟩ : ∃ ob sc,
        strictBest (calculate_address_similarity i) 0 p.addrCands (Option.none, 0) =
          (ob, sc) := ⟨_, _, rfl⟩
    have hloop : addrLoop i (npiAddrEntries (Provider.enc p)) (Option.none, 0) = (ob, sc) := by
      rw [npiAddrEntries_enc, addrLoop_enc i hnb _ _ _ (le_refl 0)]
      exact hbs
    have hmain := strictBest_from_start (calculate_address_similarity i) 0 (le_refl 0)
      p.addrCands ob sc hbs
    constructor
    · intro hobs c hc
      rw [verify_address] at hobs
      dsimp only at hobs
      rw [hloop] at hobs
      cases ob with
      | some f => cases hobs
      | none =>
        rcases hmain with ⟨hb, hs, hall⟩ | ⟨pre, q, post, hxs, hb, hs, hgt, hpre, hdom⟩
        · exact le_antisymm (hall c hc) (addr_sim_nonneg i c)
        · cases hb
    · intro v hobs
      rw [verify_address] at hobs
      dsimp only at hobs
      rw [hloop] at hobs
      cases ob with
      | none => cases hobs
      | some f =>
        rcases hmain with ⟨hb, hs, hall⟩ | ⟨pre, q, post, hxs, hb, hs, hgt, hpre, hdom⟩
        · cases hb
        · have hfq : f = q := by cases hb; rfl
          have hv : v = PyVal.str f := by cases hobs; rfl
          subst hfq
          refine ⟨f, pre, post, hv, hxs, hgt, hpre, hdom, ?_⟩
          rw [verify_address]
          dsimp only
          rw [hloop]
          dsimp only
          rw [if_pos hnb, hs]
  · intro hnb
    have hnb2 : ¬ nonBlank i = true := by rw [hnb]; exact Bool.false_ne_true
    have hloop : addrLoop i (npiAddrEntries (Provider.enc p)) (Option.none, 0) =
        (p.addrCands.head?, 0) := by
      rw [npiAddrEntries_enc, addrLoop_blank i hnb2]
      rfl
    rw [verify_address]
    dsimp only
    rw [hloop]
    cases hh : p.addrCands.head? with
    | some f =>
      dsimp only
      rw [if_neg hnb2]
      exact ⟨rfl, rfl⟩
    | none =>
      dsimp only
      exact ⟨rfl, rfl⟩

/-- C5 witness: with no claimed address the verifier records the first
formatted entry (purpose notwithstanding) and an unknown match. -/
theorem c5_witness :
    (verify_address "" (PyVal.dict []) (Provider.enc provMailing)).scraped_data_field_a =
      provMailing.addrCands.head?.map PyVal.str ∧
    (verify_address "" (PyVal.dict []) (Provider.enc provMailing)).matches_ = Option.none :=
  (c5_amended_address_selection "" provMailing).2 (by decide)
